import Mathlib

/-!
# RTSP / RTP-MJPEG server (`components/rtsp_mjpeg/src/rtsp_mjpeg.c`)

A shallow embedding of the packetizer, the sender and the RTSP handshake of the
server task, followed by the properties proved about them.

Conventions of the embedding:
* a byte buffer is a `List Nat`; a C string is the `List Char` of the characters
  before its terminating NUL;
* `int` is `Int` with the conversion `to_int` (32 bits, two's complement) where
  the source casts, `size_t` is `Nat` with `to_size_t` (32 bits, the ESP32 ABI);
  `x >> k` is written `x / 2 ^ k` and `x & 0xFF` is written `x % 256`;
* socket calls are inputs of the model: the outcome of every `sendto` is read
  from an oracle indexed by the number of calls made so far, the requests
  received on the control connection are a list.
-/

namespace RtspMjpeg

/-! ## Constants -/

def RTP_HEADER_SIZE : Nat := 12
def RTP_PAYLOAD_TYPE : Nat := 26
def RTP_SSRC : Nat := 0xCAFEBABE
def MAX_PACKET_SIZE : Nat := 1400
def MAX_SEND_RETRIES : Nat := 5
def RETRY_DELAY_MS : Nat := 5

/-- Values of `sdkconfig.h` (not part of the sources): `CONFIG_RTSP_MJPEG_PORT` and
`CONFIG_RTSP_MJPEG_DEFAULT_FPS`. -/
structure Config where
  port : Nat
  fps : Nat
  deriving DecidableEq, Repr

/-! ## Machine integers -/

/-- Conversion to `int`: reduction modulo `2^32` into `[-2^31, 2^31)`. -/
def to_int (n : Int) : Int :=
  if n % 4294967296 < 2147483648 then n % 4294967296 else n % 4294967296 - 4294967296

/-- Conversion to `size_t` (and `uint32_t`): reduction modulo `2^32`. -/
def to_size_t (n : Int) : Nat := (n % 4294967296).toNat

/-- Conversion to `uint8_t`. -/
def to_u8 (n : Int) : Nat := (n % 256).toNat

/-! ## JPEG header scan -/

/-- The `for` loop of `find_sos`, started at index `i`; the first argument bounds the
number of iterations still to run. -/
def find_sos_loop (buf : List Nat) (len : Nat) : Nat → Nat → Int
  | 0, _ => 0
  | fuel + 1, i =>
    if (i : Int) + 3 < to_int len then
      if buf.getD i 0 = 0xFF ∧ buf.getD (i + 1) 0 = 0xDA then (i : Int) + 4
      else find_sos_loop buf len fuel (i + 1)
    else 0

/-- Find end of JPEG header (SOI→SOS + length); `0` when there is no SOS marker. -/
def find_sos (buf : List Nat) (len : Nat) : Int :=
  find_sos_loop buf len len 0

/-- The `for` loop of `check_and_log_dqt_once`, started at index `i`. -/
def check_dqt_loop (buf : List Nat) (header_len : Nat) : Nat → Nat → Bool
  | 0, _ => false
  | fuel + 1, i =>
    if i + 1 < header_len then
      if buf.getD i 0 = 0xFF ∧ buf.getD (i + 1) 0 = 0xDB then true
      else check_dqt_loop buf header_len fuel (i + 1)
    else false

/-- Returns `1` if a DQT marker is found in the header, and the new value of the
`logged` flag (set by either branch). -/
def check_and_log_dqt_once (buf : List Nat) (header_len : Nat) (_logged : Bool) : Int × Bool :=
  (if check_dqt_loop buf header_len header_len 0 then 1 else 0, true)

/-! ## Packet headers -/

/-- Build RTP header: the 12 bytes written at `pkt[0..11]`. -/
def build_rtp_header (seq ts ssrc : Nat) (marker : Int) : List Nat :=
  [0x80,
   (RTP_PAYLOAD_TYPE ||| (if marker ≠ 0 then 0x80 else 0x00)) % 256,
   seq / 256 % 256, seq % 256,
   ts / 16777216 % 256, ts / 65536 % 256, ts / 256 % 256, ts % 256,
   ssrc / 16777216 % 256, ssrc / 65536 % 256, ssrc / 256 % 256, ssrc % 256]

/-- Build JPEG payload header (8 bytes, RFC 2435). -/
def build_jpeg_header (offset type q w8 h8 : Int) : List Nat :=
  [to_u8 type,
   to_u8 (offset / 65536 % 256), to_u8 (offset / 256 % 256), to_u8 (offset % 256),
   0, to_u8 q, to_u8 w8, to_u8 h8]

/-! ## Sending one datagram -/

/-- Outcome of one `sendto`: accepted (`sent >= 0`), refused with
`errno == ENOBUFS`, refused with another `errno`. -/
inductive SendtoResult where
  | sent
  | enobufs
  | error
  deriving DecidableEq, Repr

/-- What one call of `send_rtp_packet_reliable` did: its return value, the number of
`sendto` calls it made and the delays (in ms) it slept, in order; each delay is the
`vTaskDelay` that follows a failed `sendto` and is itself followed by `taskYIELD`. -/
structure SendRun where
  result : Bool
  attempts : Nat
  delays : List Nat
  deriving DecidableEq, Repr

/-- The `while (retry_count < MAX_SEND_RETRIES)` loop of `send_rtp_packet_reliable`;
`net` gives the outcome of the `pos`-th `sendto` of the session. -/
def send_rtp_packet_reliable_loop (net : Nat → SendtoResult) :
    Nat → Nat → Nat → SendRun
  | 0, _, _ => ⟨false, 0, []⟩
  | fuel + 1, retry_count, pos =>
    if retry_count < MAX_SEND_RETRIES then
      match net pos with
      | .sent => ⟨true, 1, []⟩
      | .enobufs =>
        let r := send_rtp_packet_reliable_loop net fuel (retry_count + 1) (pos + 1)
        ⟨r.result, r.attempts + 1, RETRY_DELAY_MS * 2 ^ retry_count :: r.delays⟩
      | .error => ⟨false, 1, []⟩
    else ⟨false, 0, []⟩

/-- Optimized RTP packet sending with flow control. -/
def send_rtp_packet_reliable (net : Nat → SendtoResult) (pos : Nat) : SendRun :=
  send_rtp_packet_reliable_loop net (MAX_SEND_RETRIES + 1) 0 pos

/-! ## Streaming loop -/

/-- A camera frame buffer (`camera_fb_t`): the JPEG bytes and the picture size;
`len` is the number of bytes of `buf`. -/
structure camera_fb_t where
  buf : List Nat
  width : Nat
  height : Nat
  deriving DecidableEq, Repr

def camera_fb_t.len (fb : camera_fb_t) : Nat := fb.buf.length

/-- The mutable state of the streaming loop: the two global counters, the DQT flag of
the session, the number of `sendto` calls made and the frame counter. -/
structure StreamState where
  global_seq : Nat
  global_timestamp : Nat
  dqt_logged : Bool
  sendto_calls : Nat
  frame_count : Nat
  deriving DecidableEq, Repr

/-- One packet handed to `send_rtp_packet_reliable`: its `pkt_size` bytes and whether the
call returned true. -/
structure RtpSend where
  pkt : List Nat
  delivered : Bool
  deriving DecidableEq, Repr

/-- The value of `max_payload`: `MAX_PACKET_SIZE - RTP_HEADER_SIZE - jpeg_hdr_size`. -/
def max_payload : Int := (MAX_PACKET_SIZE : Int) - RTP_HEADER_SIZE - 8

/-- The value of `scan_len_total`: `jpeg_len - header_len`, a `size_t`. -/
def scan_len_total (fb : camera_fb_t) (header_len : Int) : Nat :=
  to_size_t ((fb.len : Int) - header_len)

/-- The values of `chunk` and `last_pkt` computed at the head of one iteration of the
fragment loop, before the test `chunk <= 0`. -/
def fragment_chunk (fb : camera_fb_t) (header_len : Int) (scan_offset : Nat) : Int × Bool :=
  let first_pkt : Bool := scan_offset == 0
  let chunk : Int := max_payload
  let chunk : Int := if first_pkt then chunk - header_len else chunk
  if chunk > to_int (to_size_t ((scan_len_total fb header_len : Int) - scan_offset)) then
    (to_int (to_size_t ((scan_len_total fb header_len : Int) - scan_offset)), true)
  else (chunk, false)

/-- The `pkt_size` bytes written into `packet_buffer` by one iteration: RTP header, JPEG
payload header (with `width/8` and `height/8`, the divisions of `int`), the JPEG header
bytes in the first packet, then `chunk` scan bytes. -/
def build_packet (fb : camera_fb_t) (header_len q_val : Int) (seq ts scan_offset : Nat)
    (chunk : Int) (last_pkt : Bool) : List Nat :=
  let first_pkt : Bool := scan_offset == 0
  build_rtp_header seq ts RTP_SSRC (if last_pkt then 1 else 0)
  ++ build_jpeg_header (to_int scan_offset) 0 q_val
       (Int.tdiv (to_int fb.width) 8) (Int.tdiv (to_int fb.height) 8)
  ++ (if first_pkt then fb.buf.take header_len.toNat else [])
  ++ (fb.buf.drop (header_len.toNat + scan_offset)).take chunk.toNat

/-- The fragment loop `while (scan_offset < scan_len_total)` of one frame, started at
`scan_offset`; the first argument bounds the number of iterations still to run. Every
packet is handed to `send_rtp_packet_reliable`, whose result is only logged. -/
def fragment_loop (net : Nat → SendtoResult) (fb : camera_fb_t) (header_len q_val : Int) :
    Nat → Nat → StreamState → List RtpSend × StreamState
  | 0, _, st => ([], st)
  | fuel + 1, scan_offset, st =>
    if scan_offset < scan_len_total fb header_len then
      let c := fragment_chunk fb header_len scan_offset
      if c.1 ≤ 0 then ([], st)
      else
        let pkt := build_packet fb header_len q_val st.global_seq st.global_timestamp
                     scan_offset c.1 c.2
        let run := send_rtp_packet_reliable net st.sendto_calls
        let st1 : StreamState :=
          { st with global_seq := (st.global_seq + 1) % 65536,
                    sendto_calls := st.sendto_calls + run.attempts }
        let rest := fragment_loop net fb header_len q_val fuel
                      (to_size_t ((scan_offset : Int) + c.1)) st1
        (⟨pkt, run.result⟩ :: rest.1, rest.2)
    else ([], st)

/-- What one turn of the streaming loop finds: the control connection closed (the
liveness peek), no frame from the camera, or a frame. -/
inductive CycleInput where
  | disconnected
  | no_frame
  | frame (fb : camera_fb_t)
  deriving DecidableEq, Repr

/-- The part of one turn of the streaming loop that follows `esp_camera_fb_get`: header
analysis, the two rejections (`continue`), the fragment loop and the timestamp
increment. -/
def stream_frame (cfg : Config) (net : Nat → SendtoResult) (fb : camera_fb_t)
    (st : StreamState) : List RtpSend × StreamState :=
  let header_len := find_sos fb.buf fb.len
  if header_len ≤ 0 then ([], st)
  else
    let dqt := check_and_log_dqt_once fb.buf header_len.toNat st.dqt_logged
    let q_val : Int := if dqt.1 ≠ 0 then 255 else 0
    let st0 : StreamState := { st with dqt_logged := dqt.2 }
    if header_len > max_payload then ([], st0)
    else
      let r := fragment_loop net fb header_len q_val (scan_len_total fb header_len) 0 st0
      (r.1, { r.2 with frame_count := (r.2.frame_count + 1) % 4294967296,
                       global_timestamp :=
                         (r.2.global_timestamp + 90000 / cfg.fps) % 4294967296 })

/-- The streaming loop `while (1)` over the turns observed; the Boolean of the result
tells whether the loop is still running after them (false once it took the `break`
of the liveness check). -/
def streaming_loop (cfg : Config) (net : Nat → SendtoResult) :
    List CycleInput → StreamState → List RtpSend × StreamState × Bool
  | [], st => ([], st, true)
  | .disconnected :: _, st => ([], st, false)
  | .no_frame :: rest, st => streaming_loop cfg net rest st
  | .frame fb :: rest, st =>
    let r := stream_frame cfg net fb st
    let r2 := streaming_loop cfg net rest r.2
    (r.1 ++ r2.1, r2.2)

/-! ## RTSP requests and replies -/

/-- The C library's `strstr(s, needle)`: the part of `s` that starts at the first
occurrence of `needle`, `none` for `NULL`. -/
def strstr : List Char → List Char → Option (List Char)
  | [], needle => if needle = [] then some [] else none
  | c :: s, needle => if needle.isPrefixOf (c :: s) then some (c :: s) else strstr s needle

/-- The loop `while (*p == ' ') p++;` of `get_cseq`. -/
def skip_spaces : List Char → List Char
  | [] => []
  | c :: p => if c = ' ' then skip_spaces p else c :: p

/-- The copy loop of `get_cseq`, `while (*p && *p!='\r' && *p!='\n' && i+1<len)`,
entered with `i` characters already copied: the characters it appends. -/
def copy_cseq (len : Nat) : List Char → Nat → List Char
  | [], _ => []
  | c :: p, i =>
    if c ≠ '\r' ∧ c ≠ '\n' ∧ i + 1 < len then c :: copy_cseq len p (i + 1) else []

/-- Extract CSeq from an RTSP request: `none` when the function returns false, else the
string left in `cseq`. -/
def get_cseq (req : List Char) (len : Nat) : Option (List Char) :=
  match strstr req "CSeq:".toList with
  | none => none
  | some p => some (copy_cseq len (skip_spaces (p.drop 5)) 0)

/-- The C library's `isspace`. -/
def is_space (c : Char) : Bool :=
  c = ' ' || c = '\t' || c = '\n' || c = '\x0b' || c = '\x0c' || c = '\r'

/-- Leading white space, which `%d` skips. -/
def skip_white : List Char → List Char
  | [] => []
  | c :: s => if is_space c then skip_white s else c :: s

/-- The value of the decimal digits at the head of a string, after `acc`. -/
def scan_digits (acc : Nat) : List Char → Nat
  | [] => acc
  | c :: s => if c.isDigit then scan_digits (acc * 10 + (c.toNat - 48)) s else acc

/-- The C library's `sscanf(s, "%d", &v) == 1`: white space, an optional sign, then at
least one digit; `some v` when the conversion succeeds. The value is the mathematical one:
what is stored for a number outside the range of `int` is not fixed by these sources, and
the properties below are about numbers in that range. -/
def sscanf_d (s : List Char) : Option Int :=
  match skip_white s with
  | [] => none
  | c :: r =>
    if c = '-' then
      match r with
      | [] => none
      | d :: _ => if d.isDigit then some (-(scan_digits 0 r : Int)) else none
    else if c = '+' then
      match r with
      | [] => none
      | d :: _ => if d.isDigit then some (scan_digits 0 r : Int) else none
    else if c.isDigit then some (scan_digits 0 (c :: r) : Int)
    else none

/-- The output of `%d`. -/
def fmt_d (v : Int) : List Char :=
  if v < 0 then '-' :: Nat.toDigits 10 v.natAbs else Nat.toDigits 10 v.toNat

/-- The output of `%08X`. -/
def fmt_08X (v : Nat) : List Char :=
  let digits := (Nat.toDigits 16 v).map Char.toUpper
  List.replicate (8 - digits.length) '0' ++ digits

/-- What the server task knows of the connection besides the session state: the text
of the client address (`inet_ntoa`), the port that `getsockname` reports for the RTP
socket, and the frame size that `build_sdp` reads from the sensor (through
`esp_camera_sensor_get` and the table `resolution`, which are not part of the sources),
`none` when there is no sensor. -/
structure Conn where
  client_ip : List Char
  rtp_server_port : Nat
  sensor_size : Option (Nat × Nat)
  deriving DecidableEq, Repr

/-- Build minimal SDP. -/
def build_sdp (cfg : Config) (conn : Conn) (ip : List Char) : List Char :=
  let size : Nat × Nat := match conn.sensor_size with
    | none => (320, 240)
    | some wh => wh
  "v=0\r\no=- 0 0 IN IP4 ".toList ++ ip ++ "\r\ns=ESP32 MJPEG\r\nc=IN IP4 ".toList ++ ip
  ++ "\r\nt=0 0\r\nm=video 0 RTP/AVP ".toList ++ fmt_d RTP_PAYLOAD_TYPE
  ++ "\r\na=control:track1\r\na=rtpmap:".toList ++ fmt_d RTP_PAYLOAD_TYPE
  ++ " JPEG/90000\r\na=framesize:".toList ++ fmt_d RTP_PAYLOAD_TYPE ++ " ".toList
  ++ fmt_d size.1 ++ "-".toList ++ fmt_d size.2
  ++ "\r\na=framerate:".toList ++ fmt_d cfg.fps ++ "\r\n".toList

/-- The state of one client session during the handshake: the local variables
`streaming` and `client_rtp_port`, the port stored in `rtp_client.sin_port` (in host
order) and the two global counters. -/
structure Session where
  streaming : Bool
  client_rtp_port : Int
  rtp_client_port : Nat
  global_seq : Nat
  global_timestamp : Nat
  deriving DecidableEq, Repr

/-- The branch of the `if ... else if` chain of `strstr` tests that handles a request. -/
inductive Method where
  | options
  | describe
  | setup
  | play
  | teardown
  | unknown
  deriving DecidableEq, Repr

/-- The chain `if (strstr(recv_buf, "OPTIONS ")) ... else if (strstr(recv_buf, "DESCRIBE "))
...` of the handshake loop. -/
def dispatch (req : List Char) : Method :=
  if (strstr req "OPTIONS ".toList).isSome then .options
  else if (strstr req "DESCRIBE ".toList).isSome then .describe
  else if (strstr req "SETUP ".toList).isSome then .setup
  else if (strstr req "PLAY ".toList).isSome then .play
  else if (strstr req "TEARDOWN ".toList).isSome then .teardown
  else .unknown

/-- Parse Transport header for client port: `some port1` when `found_port` is set. -/
def parse_client_port (req : List Char) : Option Int :=
  match strstr req "Transport:".toList with
  | none => none
  | some transport_line =>
    match strstr transport_line "client_port=".toList with
    | none => none
    | some client_port_str => sscanf_d (client_port_str.drop "client_port=".toList.length)

def reply_options (cseq : List Char) : List Char :=
  "RTSP/1.0 200 OK\r\nCSeq: ".toList ++ cseq
  ++ "\r\nPublic: OPTIONS, DESCRIBE, SETUP, PLAY, TEARDOWN\r\nServer: ESP32-RTSP/1.0\r\n\r\n".toList

def reply_describe (cfg : Config) (conn : Conn) (cseq : List Char) : List Char :=
  "RTSP/1.0 200 OK\r\nCSeq: ".toList ++ cseq
  ++ "\r\nContent-Base: rtsp://".toList ++ conn.client_ip ++ ":".toList ++ fmt_d cfg.port
  ++ "/\r\nContent-Type: application/sdp\r\nContent-Length: ".toList
  ++ fmt_d (build_sdp cfg conn conn.client_ip).length
  ++ "\r\nServer: ESP32-RTSP/1.0\r\n\r\n".toList ++ build_sdp cfg conn conn.client_ip

def reply_setup_ok (conn : Conn) (cseq : List Char) (client_rtp_port : Int) : List Char :=
  "RTSP/1.0 200 OK\r\nCSeq: ".toList ++ cseq
  ++ "\r\nTransport: RTP/AVP;unicast;client_port=".toList ++ fmt_d client_rtp_port
  ++ ";server_port=".toList ++ fmt_d conn.rtp_server_port
  ++ "\r\nSession: ".toList ++ fmt_08X RTP_SSRC ++ "\r\nServer: ESP32-RTSP/1.0\r\n\r\n".toList

def reply_setup_bad (cseq : List Char) : List Char :=
  "RTSP/1.0 400 Bad Request\r\nCSeq: ".toList ++ cseq
  ++ "\r\nServer: ESP32-RTSP/1.0\r\n\r\n".toList

def reply_play (cfg : Config) (conn : Conn) (cseq : List Char) : List Char :=
  "RTSP/1.0 200 OK\r\nCSeq: ".toList ++ cseq
  ++ "\r\nSession: ".toList ++ fmt_08X RTP_SSRC
  ++ "\r\nRTP-Info: url=rtsp://".toList ++ conn.client_ip ++ ":".toList ++ fmt_d cfg.port
  ++ "/track1;seq=0;rtptime=0\r\nServer: ESP32-RTSP/1.0\r\n\r\n".toList

def reply_teardown (cseq : List Char) : List Char :=
  "RTSP/1.0 200 OK\r\nCSeq: ".toList ++ cseq
  ++ "\r\nSession: ".toList ++ fmt_08X RTP_SSRC ++ "\r\nServer: ESP32-RTSP/1.0\r\n\r\n".toList

def reply_not_implemented (cseq : List Char) : List Char :=
  "RTSP/1.0 501 Not Implemented\r\nCSeq: ".toList ++ cseq
  ++ "\r\nServer: ESP32-RTSP/1.0\r\n\r\n".toList

/-- What one turn of the handshake loop does with a request: the reply passed to `send`,
the session state after it, and whether the turn ends in `break`. -/
structure Turn where
  reply : List Char
  session : Session
  stop : Bool
  deriving DecidableEq, Repr

/-- The string in `cseq` once the head of the loop body has run: the result of
`get_cseq(recv_buf, cseq, sizeof(cseq))`, or `"1"` when it returns false. -/
def request_cseq (req : List Char) : List Char :=
  match get_cseq req 32 with
  | some v => v
  | none => "1".toList

/-- One turn of the handshake loop on the request `req` (the string in `recv_buf`);
`send_ok` tells whether the `send` of the reply succeeds (`>= 0`). -/
def handle_request (cfg : Config) (conn : Conn) (req : List Char) (send_ok : Bool)
    (s : Session) : Turn :=
  let cseq : List Char := request_cseq req
  match dispatch req with
  | .options => ⟨reply_options cseq, s, !send_ok⟩
  | .describe => ⟨reply_describe cfg conn cseq, s, !send_ok⟩
  | .setup =>
    let port := parse_client_port req
    let client_rtp_port : Int := match port with
      | some port1 => port1
      | none => s.client_rtp_port
    if port.isSome ∧ client_rtp_port > 0 then
      ⟨reply_setup_ok conn cseq client_rtp_port,
       { s with client_rtp_port := client_rtp_port,
                rtp_client_port := (client_rtp_port % 65536).toNat }, !send_ok⟩
    else
      ⟨reply_setup_bad cseq, { s with client_rtp_port := client_rtp_port }, true⟩
  | .play =>
    ⟨reply_play cfg conn cseq,
     { s with global_seq := 0, global_timestamp := 0, streaming := send_ok }, !send_ok⟩
  | .teardown => ⟨reply_teardown cseq, s, true⟩
  | .unknown => ⟨reply_not_implemented cseq, s, false⟩

/-- What the control connection delivers to one call of `recv_rtsp_message`: nothing
(`r <= 0`: the peer closed or the timeout passed) or a request, paired with the fate of
the `send` of its reply. -/
inductive Recv where
  | closed
  | request (text : List Char) (send_ok : Bool)
  deriving DecidableEq, Repr

/-- RTSP handshake loop `while (!streaming)`: the replies passed to `send`, in order, and
the session state when the loop is left. An empty list of inputs stands for a peer
that sends nothing more. -/
def handshake_loop (cfg : Config) (conn : Conn) : List Recv → Session → List (List Char) × Session
  | [], s => ([], s)
  | .closed :: _, s => ([], s)
  | .request text send_ok :: rest, s =>
    if s.streaming then ([], s)
    else
      let t := handle_request cfg conn text send_ok s
      if t.stop then ([t.reply], t.session)
      else
        let r := handshake_loop cfg conn rest t.session
        (t.reply :: r.1, r.2)

/-- What one client session did: the replies on the control connection, the RTP
packets handed to the sender, the global counters left behind, and whether both sockets
were closed (the cleanup after the streaming loop). -/
structure SessionRun where
  replies : List (List Char)
  packets : List RtpSend
  global_seq : Nat
  global_timestamp : Nat
  closed : Bool
  deriving DecidableEq, Repr

/-- One client session, from the accepted connection to the cleanup: the handshake over
the requests `inputs`, then, if `streaming && ntohs(rtp_client.sin_port) > 0`, the
streaming loop over `cycles`. `seq0` and `ts0` are the values of the global counters
when the client connects. -/
def client_session (cfg : Config) (conn : Conn) (net : Nat → SendtoResult)
    (inputs : List Recv) (cycles : List CycleInput) (seq0 ts0 : Nat) : SessionRun :=
  let h := handshake_loop cfg conn inputs
    { streaming := false, client_rtp_port := 0, rtp_client_port := 0,
      global_seq := seq0, global_timestamp := ts0 }
  if h.2.streaming ∧ h.2.rtp_client_port > 0 then
    let r := streaming_loop cfg net cycles
      { global_seq := h.2.global_seq, global_timestamp := h.2.global_timestamp,
        dqt_logged := false, sendto_calls := 0, frame_count := 0 }
    ⟨h.1, r.1, r.2.1.global_seq, r.2.1.global_timestamp, !r.2.2⟩
  else ⟨h.1, [], h.2.global_seq, h.2.global_timestamp, true⟩

/-! ## Reading packets back

What a receiver extracts from the packets: the fields of the RTP header and the scan
bytes that follow the headers. -/

/-- The sequence number carried by a packet (bytes 2 and 3, big-endian). -/
def rtp_seq (pkt : List Nat) : Nat := pkt.getD 2 0 * 256 + pkt.getD 3 0

/-- The timestamp carried by a packet (bytes 4 to 7, big-endian). -/
def rtp_timestamp (pkt : List Nat) : Nat :=
  pkt.getD 4 0 * 16777216 + pkt.getD 5 0 * 65536 + pkt.getD 6 0 * 256 + pkt.getD 7 0

/-- The marker bit of a packet: bit `0x80` of byte 1. -/
def rtp_marker (pkt : List Nat) : Bool := decide (pkt.getD 1 0 &&& 0x80 ≠ 0)

/-- Scan bytes of packets that are not the first of their frame: each packet minus its
12-byte RTP header and its 8-byte JPEG payload header, concatenated. -/
def scan_bytes_next : List RtpSend → List Nat
  | [] => []
  | e :: rest => e.pkt.drop 20 ++ scan_bytes_next rest

/-- Scan bytes of the packets of one frame whose header prefix has `h` bytes: the first
packet minus its 20 header bytes and the `h` bytes of the prefix, then the scan bytes of
the following packets. -/
def scan_bytes (h : Nat) : List RtpSend → List Nat
  | [] => []
  | e :: rest => e.pkt.drop (20 + h) ++ scan_bytes_next rest

/-- The numbers `s, s + 1, ...` modulo 65536, `n` of them. -/
def consecutive_seqs (s n : Nat) : List Nat := (List.range n).map (fun k => (s + k) % 65536)

/-- A 320x240 frame made of `n` zero bytes, an SOS marker with its length field and the
scan bytes `scan`: its header prefix has `n + 4` bytes. -/
def padded_frame (n : Nat) (scan : List Nat) : camera_fb_t :=
  ⟨List.replicate n 0 ++ [0xFF, 0xDA, 0, 12] ++ scan, 320, 240⟩

/-- The method of an RTSP request as RTSP defines it: the first word of its request
line. -/
def request_method (req : List Char) : List Char := req.takeWhile (fun c => c ≠ ' ')

/-- The Transport header line of a request: from the first `Transport:` to the end of
that line. -/
def transport_header (req : List Char) : Option (List Char) :=
  (strstr req "Transport:".toList).map (fun t => t.takeWhile (fun c => c ≠ '\r' ∧ c ≠ '\n'))

/-- The CSeq value of a request in the words of the specification: the text after the
first `CSeq:`, following spaces trimmed, up to the end of the line. -/
def cseq_value (req : List Char) : Option (List Char) :=
  (strstr req "CSeq:".toList).map
    (fun p => ((p.drop 5).dropWhile (fun c => c = ' ')).takeWhile (fun c => c ≠ '\r' ∧ c ≠ '\n'))

/-- The value of a string of decimal digits. -/
def decimal_value (digits : List Char) : Nat :=
  digits.foldl (fun acc c => acc * 10 + (c.toNat - 48)) 0

/-- The version field of a packet: the two high bits of byte 0. -/
def rtp_version (pkt : List Nat) : Nat := pkt.getD 0 0 / 64

/-- The padding bit of a packet: bit `0x20` of byte 0. -/
def rtp_padding (pkt : List Nat) : Nat := pkt.getD 0 0 / 32 % 2

/-- The extension bit of a packet: bit `0x10` of byte 0. -/
def rtp_extension (pkt : List Nat) : Nat := pkt.getD 0 0 / 16 % 2

/-- The CSRC count of a packet: the four low bits of byte 0. -/
def rtp_csrc_count (pkt : List Nat) : Nat := pkt.getD 0 0 % 16

/-- The payload type of a packet: the seven low bits of byte 1. -/
def rtp_payload_type (pkt : List Nat) : Nat := pkt.getD 1 0 % 128

/-- The SSRC carried by a packet (bytes 8 to 11, big-endian). -/
def rtp_ssrc (pkt : List Nat) : Nat :=
  pkt.getD 8 0 * 16777216 + pkt.getD 9 0 * 65536 + pkt.getD 10 0 * 256 + pkt.getD 11 0

/-- The fragment offset carried by a packet: bytes 1 to 3 of the JPEG payload header,
which follows the 12 bytes of the RTP header, big-endian. -/
def jpeg_fragment_offset (pkt : List Nat) : Nat :=
  pkt.getD 13 0 * 65536 + pkt.getD 14 0 * 256 + pkt.getD 15 0

/-- The value of `pkt_size` in one iteration of the fragment loop:
`RTP_HEADER_SIZE + jpeg_hdr_size + (first_pkt ? header_len : 0) + chunk`. -/
def pkt_size (header_len : Int) (scan_offset : Nat) (chunk : Int) : Int :=
  (RTP_HEADER_SIZE : Int) + 8 + (if scan_offset = 0 then header_len else 0) + chunk

/-- The delays slept after `k` consecutive ENOBUFS failures, in ms:
`RETRY_DELAY_MS * 2 ^ 0, ..., RETRY_DELAY_MS * 2 ^ (k - 1)`. -/
def backoff_delays (k : Nat) : List Nat := (List.range k).map (fun j => RETRY_DELAY_MS * 2 ^ j)

/-- A request that the SETUP branch answers with 200: it is dispatched to that branch and
a positive client port is parsed from it. -/
def setup_accepted (req : List Char) : Prop :=
  dispatch req = Method.setup ∧ ∃ p : Int, parse_client_port req = some p ∧ 0 < p

/-! # Properties

## Machine integers and the header scan -/

theorem to_int_of_range {n : Int} (h0 : 0 ≤ n) (h1 : n < 2147483648) : to_int n = n := by
  unfold to_int; split <;> omega

theorem to_size_t_of_range {n : Int} (h0 : 0 ≤ n) (h1 : n < 4294967296) :
    to_size_t n = n.toNat := by
  unfold to_size_t; congr 1; omega

theorem to_size_t_natCast {n : Nat} (h1 : n < 4294967296) : to_size_t (n : Int) = n := by
  unfold to_size_t; omega

theorem find_sos_loop_range (buf : List Nat) (len : Nat) :
    ∀ fuel i : Nat, find_sos_loop buf len fuel i = 0 ∨
      ((i : Int) + 4 ≤ find_sos_loop buf len fuel i ∧ find_sos_loop buf len fuel i ≤ to_int len) := by
  intro fuel
  induction fuel with
  | zero => intro i; left; rfl
  | succ k ih =>
    intro i
    rw [find_sos_loop]
    split
    · split
      · right; omega
      · rcases ih (i + 1) with h | h
        · left; exact h
        · right; push_cast at h; omega
    · left; rfl

theorem find_sos_range (buf : List Nat) (len : Nat) (hlen : len < 4294967296)
    (hpos : 0 < find_sos buf len) :
    4 ≤ find_sos buf len ∧ find_sos buf len ≤ len ∧ len < 2147483648 := by
  rcases find_sos_loop_range buf len len 0 with h | h
  · unfold find_sos at hpos; omega
  · unfold find_sos
    have : to_int len ≤ len ∧ (0 < to_int len → len < 2147483648) := by
      unfold to_int; split <;> omega
    omega

theorem max_payload_eq : max_payload = 1380 := by decide

theorem scan_len_total_eq (fb : camera_fb_t) (H : Nat) (hH : H ≤ fb.buf.length)
    (hlen : fb.buf.length < 2147483648) :
    scan_len_total fb (H : Int) = fb.buf.length - H := by
  unfold scan_len_total camera_fb_t.len
  rw [to_size_t_of_range] <;> omega

theorem fragment_chunk_eq (fb : camera_fb_t) (H off : Nat) (hH : H + off ≤ fb.buf.length)
    (hlen : fb.buf.length < 2147483648) :
    fragment_chunk fb (H : Int) off =
      if (if off = 0 then (1380 : Int) - H else 1380) > ((fb.buf.length - H - off : Nat) : Int)
      then (((fb.buf.length - H - off : Nat) : Int), true)
      else ((if off = 0 then (1380 : Int) - H else 1380), false) := by
  have hrem : to_int (to_size_t (((fb.buf.length - H : Nat) : Int) - (off : Int)))
      = ((fb.buf.length - H - off : Nat) : Int) := by
    rw [to_size_t_of_range, to_int_of_range] <;> omega
  unfold fragment_chunk
  simp only [scan_len_total_eq fb H (by omega) hlen, hrem, max_payload_eq, beq_iff_eq]

theorem length_headers (seq ts ssrc : Nat) (m o t q w h : Int) :
    (build_rtp_header seq ts ssrc m ++ build_jpeg_header o t q w h).length = 20 := by
  simp [build_rtp_header, build_jpeg_header]

theorem drop_headers (fb : camera_fb_t) (H : Nat) (q : Int) (seq ts off : Nat) (c : Int) (l : Bool) :
    (build_packet fb H q seq ts off c l).drop 20 =
      (if off = 0 then fb.buf.take H else []) ++ (fb.buf.drop (H + off)).take c.toNat := by
  unfold build_packet
  simp only [List.append_assoc, Int.toNat_ofNat, beq_iff_eq]
  rw [← List.append_assoc, List.drop_append_of_le_length (by rw [length_headers]),
    List.drop_of_length_le (by rw [length_headers]), List.nil_append]

theorem take_drop_chain (l : List Nat) (a c : Nat) :
    (l.drop a).take c ++ l.drop (a + c) = l.drop a := by
  have h := List.take_append_drop c (l.drop a)
  rw [List.drop_drop] at h
  simp

theorem scan_bytes_next_loop (net : Nat → SendtoResult) (fb : camera_fb_t) (H : Nat) (q : Int)
    (hlen : fb.buf.length < 2147483648) :
    ∀ (fuel off : Nat) (st : StreamState), 0 < off → H + off ≤ fb.buf.length →
      fb.buf.length - H - off ≤ fuel →
      scan_bytes_next (fragment_loop net fb H q fuel off st).1 = fb.buf.drop (H + off) := by
  intro fuel
  induction fuel with
  | zero =>
    intro off st _ h1 h2
    rw [fragment_loop, scan_bytes_next, List.drop_of_length_le (by omega)]
  | succ k ih =>
    intro off st h0 h1 h2
    rw [fragment_loop, scan_len_total_eq fb H (by omega) hlen, fragment_chunk_eq fb H off h1 hlen]
    by_cases hlt : off < fb.buf.length - H
    · have hne : off ≠ 0 := by omega
      simp only [hlt, if_true, hne, if_false]
      by_cases hc : (1380 : Int) > ((fb.buf.length - H - off : Nat) : Int)
      · simp only [hc, if_true]
        rw [if_neg (by omega)]
        simp only [scan_bytes_next, drop_headers, hne, if_false, List.nil_append, Int.toNat_ofNat]
        rw [to_size_t_of_range (by omega) (by omega)]
        rw [ih _ _ (by omega) (by omega) (by omega)]
        rw [show ((off : Int) + ((fb.buf.length - H - off : Nat) : Int)).toNat
              = off + (fb.buf.length - H - off) by omega]
        rw [show H + (off + (fb.buf.length - H - off)) = (H + off) + (fb.buf.length - H - off) by omega]
        exact take_drop_chain _ _ _
      · simp only [hc, if_false]
        rw [if_neg (by omega)]
        simp only [scan_bytes_next, drop_headers, hne, if_false, List.nil_append]
        rw [to_size_t_of_range (by omega) (by omega)]
        rw [ih _ _ (by omega) (by omega) (by omega)]
        rw [show ((off : Int) + 1380).toNat = off + 1380 by omega]
        rw [show H + (off + 1380) = (H + off) + 1380 by omega]
        exact take_drop_chain _ _ 1380
    · simp only [hlt, if_false, scan_bytes_next]
      rw [List.drop_of_length_le (by omega)]

theorem drop_first_packet (fb : camera_fb_t) (H : Nat) (q : Int) (seq ts : Nat) (c : Int) (l : Bool)
    (hH : H ≤ fb.buf.length) :
    (build_packet fb H q seq ts 0 c l).drop (20 + H) = (fb.buf.drop H).take c.toNat := by
  rw [← List.drop_drop, drop_headers]
  simp only [if_true, Nat.add_zero]
  rw [List.drop_append_of_le_length (by rw [List.length_take]; omega),
    List.drop_of_length_le (by rw [List.length_take]; omega), List.nil_append]

theorem scan_bytes_loop (net : Nat → SendtoResult) (fb : camera_fb_t) (H : Nat) (q : Int)
    (st : StreamState) (hlen : fb.buf.length < 2147483648) (hH : H ≤ fb.buf.length)
    (h1 : H ≤ 1380) :
    scan_bytes H (fragment_loop net fb H q (fb.buf.length - H) 0 st).1 =
      if H < 1380 then fb.buf.drop H else [] := by
  rcases Nat.eq_zero_or_pos (fb.buf.length - H) with hz | hp
  · rw [hz, fragment_loop, scan_bytes, List.drop_of_length_le (by omega)]
    simp
  · obtain ⟨k, hk⟩ : ∃ k, fb.buf.length - H = k + 1 := ⟨fb.buf.length - H - 1, by omega⟩
    rw [hk, fragment_loop, scan_len_total_eq fb H hH hlen, fragment_chunk_eq fb H 0 (by omega) hlen]
    simp only [if_true, Nat.sub_zero]
    rw [if_pos (by omega)]
    by_cases hc : (1380 : Int) - H > ((fb.buf.length - H : Nat) : Int)
    · simp only [hc, if_true]
      rw [if_neg (by omega), if_pos (by omega)]
      simp only [scan_bytes, drop_first_packet _ _ _ _ _ _ _ hH, Int.toNat_ofNat]
      rw [to_size_t_of_range (by omega) (by omega)]
      rw [scan_bytes_next_loop net fb H q hlen _ _ _ (by omega) (by omega) (by omega)]
      rw [show ((0 : Nat) + ((fb.buf.length - H : Nat) : Int)).toNat = fb.buf.length - H by omega]
      exact take_drop_chain _ _ _
    · simp only [hc, if_false]
      by_cases h2 : H < 1380
      · rw [if_neg (by omega), if_pos h2]
        simp only [scan_bytes, drop_first_packet _ _ _ _ _ _ _ hH]
        rw [to_size_t_of_range (by omega) (by omega)]
        rw [scan_bytes_next_loop net fb H q hlen _ _ _ (by omega) (by omega) (by omega)]
        rw [show ((0 : Nat) + ((1380 : Int) - (H : Int))).toNat = ((1380 : Int) - (H : Int)).toNat by omega]
        exact take_drop_chain _ _ _
      · rw [if_pos (by omega), if_neg h2, scan_bytes]

/-- The scan bytes of the packets of an accepted frame: the whole scan data when the
header prefix is shorter than `max_payload`, nothing when it fills it. -/
theorem stream_frame_scan_bytes (cfg : Config) (net : Nat → SendtoResult)
    (fb : camera_fb_t) (st : StreamState) (hlen : fb.len < 4294967296)
    (h0 : 0 < find_sos fb.buf fb.len) (h1 : find_sos fb.buf fb.len ≤ max_payload) :
    scan_bytes (find_sos fb.buf fb.len).toNat (stream_frame cfg net fb st).1 =
      if find_sos fb.buf fb.len < max_payload
      then fb.buf.drop (find_sos fb.buf fb.len).toNat else [] := by
  have e : fb.len = fb.buf.length := rfl
  rw [e] at hlen h0 h1 ⊢
  obtain ⟨hr4, hrl, hl31⟩ := find_sos_range fb.buf fb.buf.length hlen h0
  obtain ⟨H, hH⟩ : ∃ H : Nat, find_sos fb.buf fb.buf.length = (H : Int) :=
    ⟨(find_sos fb.buf fb.buf.length).toNat, by omega⟩
  rw [max_payload_eq] at h1
  have hHl : H ≤ fb.buf.length := by omega
  unfold stream_frame
  rw [e]
  simp only [hH, max_payload_eq, Int.toNat_ofNat]
  rw [if_neg (by omega), if_neg (by omega), scan_len_total_eq fb H hHl hl31]
  simp only []
  rw [scan_bytes_loop net fb H _ _ hl31 hHl (by omega)]
  simp only [Nat.cast_lt_ofNat]

theorem find_sos_loop_at (buf : List Nat) (len p : Nat) (hp : (p : Int) + 3 < to_int len)
    (hm : buf.getD p 0 = 0xFF ∧ buf.getD (p + 1) 0 = 0xDA)
    (hno : ∀ j, j < p → ¬ (buf.getD j 0 = 0xFF ∧ buf.getD (j + 1) 0 = 0xDA)) :
    ∀ fuel i : Nat, i ≤ p → p - i < fuel → find_sos_loop buf len fuel i = (p : Int) + 4 := by
  intro fuel
  induction fuel with
  | zero => intro i _ h; omega
  | succ k ih =>
    intro i hi hk
    rw [find_sos_loop, if_pos (by omega)]
    rcases Nat.lt_or_ge i p with hlt | hge
    · rw [if_neg (hno i hlt)]
      exact ih (i + 1) (by omega) (by omega)
    · have : i = p := by omega
      subst this
      rw [if_pos hm]

theorem getD_replicate_append (n j : Nat) (l : List Nat) (h : j < n) :
    (List.replicate n 0 ++ l).getD j 0 = 0 := by
  rw [List.getD_eq_getElem?_getD, List.getElem?_append_left (by simpa using h)]
  simp [h]

theorem getD_replicate_append_right (n j : Nat) (l : List Nat) :
    (List.replicate n 0 ++ l).getD (n + j) 0 = l.getD j 0 := by
  rw [List.getD_eq_getElem?_getD, List.getD_eq_getElem?_getD,
    List.getElem?_append_right (by simp)]
  simp

theorem length_padded_frame (n : Nat) (scan : List Nat) :
    (padded_frame n scan).buf.length = n + 4 + scan.length := by
  simp [padded_frame]; omega

theorem find_sos_padded_frame (n : Nat) (scan : List Nat) (hn : n + 4 + scan.length < 2147483648) :
    find_sos (padded_frame n scan).buf (padded_frame n scan).len = (n : Int) + 4 := by
  unfold find_sos camera_fb_t.len
  rw [length_padded_frame]
  refine find_sos_loop_at _ _ n ?_ ?_ ?_ _ 0 (by omega) (by omega)
  · rw [to_int_of_range] <;> omega
  · have e : (padded_frame n scan).buf = List.replicate n 0 ++ (0xFF :: 0xDA :: 0 :: 12 :: scan) := by
      simp [padded_frame]
    rw [e]
    exact ⟨getD_replicate_append_right n 0 _, getD_replicate_append_right n 1 _⟩
  · intro j hj hc
    have := getD_replicate_append n j ([0xFF, 0xDA, 0, 12] ++ scan) hj
    unfold padded_frame at hc
    simp only [List.append_assoc] at hc
    omega

theorem drop_padded_frame (n : Nat) (scan : List Nat) :
    (padded_frame n scan).buf.drop (n + 4) = scan := by
  unfold padded_frame
  rw [List.drop_append_of_le_length (by simp)]
  simp

theorem rtp_seq_build_packet (fb : camera_fb_t) (hl q : Int) (seq ts off : Nat) (c : Int) (l : Bool) :
    rtp_seq (build_packet fb hl q seq ts off c l) = seq % 65536 := by
  simp only [rtp_seq, build_packet, build_rtp_header, List.cons_append, List.getD_cons_succ,
    List.getD_cons_zero]
  omega

theorem rtp_timestamp_build_packet (fb : camera_fb_t) (hl q : Int) (seq ts off : Nat) (c : Int)
    (l : Bool) : rtp_timestamp (build_packet fb hl q seq ts off c l) = ts % 4294967296 := by
  simp only [rtp_timestamp, build_packet, build_rtp_header, List.cons_append, List.getD_cons_succ,
    List.getD_cons_zero]
  omega

theorem rtp_marker_build_packet (fb : camera_fb_t) (hl q : Int) (seq ts off : Nat) (c : Int)
    (l : Bool) : rtp_marker (build_packet fb hl q seq ts off c l) = l := by
  have h26 : (26 : Nat) &&& 128 = 0 := by decide
  cases l <;>
  simp [rtp_marker, build_packet, build_rtp_header, List.cons_append, List.getD_cons_succ,
    List.getD_cons_zero, RTP_PAYLOAD_TYPE, h26]

theorem consecutive_seqs_succ (s n : Nat) :
    consecutive_seqs s (n + 1) = s % 65536 :: consecutive_seqs ((s + 1) % 65536) n := by
  unfold consecutive_seqs
  rw [List.range_succ_eq_map, List.map_cons, List.map_map]
  congr 1
  apply List.map_congr_left
  intro k _
  simp only [Function.comp]
  omega

theorem consecutive_seqs_append (s n m : Nat) :
    consecutive_seqs s (n + m) = consecutive_seqs s n ++ consecutive_seqs ((s + n) % 65536) m := by
  induction n generalizing s with
  | zero =>
    simp only [Nat.zero_add, Nat.add_zero, consecutive_seqs, List.range_zero, List.map_nil,
      List.nil_append]
    apply List.map_congr_left
    intro k _
    omega
  | succ n ih =>
    rw [show n + 1 + m = (n + m) + 1 by omega, consecutive_seqs_succ, consecutive_seqs_succ, ih,
      List.cons_append]
    congr 3
    omega

theorem fragment_loop_stop (net : Nat → SendtoResult) (fb : camera_fb_t) (hl q : Int)
    (fuel off : Nat) (st : StreamState)
    (h : ¬ off < scan_len_total fb hl ∨ (fragment_chunk fb hl off).1 ≤ 0) :
    fragment_loop net fb hl q fuel off st = ([], st) := by
  cases fuel with
  | zero => rfl
  | succ k =>
    rw [fragment_loop]
    by_cases h1 : off < scan_len_total fb hl
    · rw [if_pos h1]
      simp only []
      rw [if_pos (by tauto)]
    · rw [if_neg h1]

theorem fragment_loop_emit (net : Nat → SendtoResult) (fb : camera_fb_t) (hl q : Int)
    (fuel off : Nat) (st : StreamState)
    (h1 : off < scan_len_total fb hl) (h2 : 0 < (fragment_chunk fb hl off).1) :
    fragment_loop net fb hl q (fuel + 1) off st =
      (⟨build_packet fb hl q st.global_seq st.global_timestamp off (fragment_chunk fb hl off).1
          (fragment_chunk fb hl off).2, (send_rtp_packet_reliable net st.sendto_calls).result⟩ ::
        (fragment_loop net fb hl q fuel (to_size_t ((off : Int) + (fragment_chunk fb hl off).1))
          { st with global_seq := (st.global_seq + 1) % 65536,
                    sendto_calls := st.sendto_calls +
                      (send_rtp_packet_reliable net st.sendto_calls).attempts }).1,
       (fragment_loop net fb hl q fuel (to_size_t ((off : Int) + (fragment_chunk fb hl off).1))
          { st with global_seq := (st.global_seq + 1) % 65536,
                    sendto_calls := st.sendto_calls +
                      (send_rtp_packet_reliable net st.sendto_calls).attempts }).2) := by
  rw [fragment_loop, if_pos h1]
  simp only []
  rw [if_neg (by omega)]

/-- What the fragment loop does to the counters, whatever the frame: the packets carry
consecutive sequence numbers and the current timestamp, the sequence counter advances by
the number of packets and nothing else of the state changes but the `sendto` count. -/
theorem fragment_loop_counters (net : Nat → SendtoResult) (fb : camera_fb_t) (hl q : Int) :
    ∀ (fuel off : Nat) (st : StreamState), st.global_seq < 65536 →
      (fragment_loop net fb hl q fuel off st).1.map (fun e => rtp_seq e.pkt) =
          consecutive_seqs st.global_seq (fragment_loop net fb hl q fuel off st).1.length ∧
      (fragment_loop net fb hl q fuel off st).2.global_seq =
          (st.global_seq + (fragment_loop net fb hl q fuel off st).1.length) % 65536 ∧
      (∀ e ∈ (fragment_loop net fb hl q fuel off st).1,
          rtp_timestamp e.pkt = st.global_timestamp % 4294967296) ∧
      (fragment_loop net fb hl q fuel off st).2.global_timestamp = st.global_timestamp ∧
      (fragment_loop net fb hl q fuel off st).2.dqt_logged = st.dqt_logged ∧
      (fragment_loop net fb hl q fuel off st).2.frame_count = st.frame_count := by
  intro fuel
  induction fuel with
  | zero =>
    intro off st hs
    simp only [fragment_loop, consecutive_seqs, List.map_nil, List.length_nil, List.range_zero,
      Nat.add_zero, List.not_mem_nil, false_implies, implies_true, and_true, true_and]
    omega
  | succ k ih =>
    intro off st hs
    by_cases h : off < scan_len_total fb hl ∧ 0 < (fragment_chunk fb hl off).1
    · rw [fragment_loop_emit net fb hl q k off st h.1 h.2]
      obtain ⟨h1, h2, h3, h4, h5, h6⟩ := ih
        (to_size_t ((off : Int) + (fragment_chunk fb hl off).1))
        { st with global_seq := (st.global_seq + 1) % 65536,
                  sendto_calls := st.sendto_calls +
                    (send_rtp_packet_reliable net st.sendto_calls).attempts }
        (Nat.mod_lt _ (by decide))
      refine ⟨?_, ?_, ?_, h4, h5, h6⟩
      · rw [List.map_cons, List.length_cons, consecutive_seqs_succ, h1, rtp_seq_build_packet]
      · rw [h2]
        simp only [List.length_cons]
        omega
      · intro e he
        rcases List.mem_cons.1 he with h | h
        · rw [h, rtp_timestamp_build_packet]
        · exact h3 e h
    · rw [fragment_loop_stop net fb hl q (k + 1) off st (by omega)]
      simp only [consecutive_seqs, List.map_nil, List.length_nil, List.range_zero,
        Nat.add_zero, List.not_mem_nil, false_implies, implies_true, and_true, true_and]
      omega

theorem fragment_chunk_first (fb : camera_fb_t) (H : Nat) (hH : H ≤ fb.buf.length)
    (hlen : fb.buf.length < 2147483648) :
    fragment_chunk fb (H : Int) 0 =
      if (1380 : Int) - H > ((fb.buf.length - H : Nat) : Int)
      then (((fb.buf.length - H : Nat) : Int), true) else ((1380 : Int) - H, false) := by
  rw [fragment_chunk_eq fb H 0 (by omega) hlen]
  simp only [if_true, Nat.sub_zero]

theorem fragment_chunk_next (fb : camera_fb_t) (H off : Nat) (h0 : 0 < off)
    (hH : H + off ≤ fb.buf.length) (hlen : fb.buf.length < 2147483648) :
    fragment_chunk fb (H : Int) off =
      if (1380 : Int) > ((fb.buf.length - H - off : Nat) : Int)
      then (((fb.buf.length - H - off : Nat) : Int), true) else (1380, false) := by
  have hne : off ≠ 0 := by omega
  rw [fragment_chunk_eq fb H off hH hlen]
  simp only [hne, if_false]

theorem markers_next_loop (net : Nat → SendtoResult) (fb : camera_fb_t) (H : Nat) (q : Int)
    (hlen : fb.buf.length < 2147483648) :
    ∀ (fuel off : Nat) (st : StreamState), 0 < off → H + off < fb.buf.length →
      (fb.buf.length - H - off) % 1380 ≠ 0 → fb.buf.length - H - off ≤ fuel →
      ∃ m, (fragment_loop net fb H q fuel off st).1.map (fun e => rtp_marker e.pkt) =
        List.replicate m false ++ [true] := by
  intro fuel
  induction fuel with
  | zero => intro off st _ h1 _ h3; omega
  | succ k ih =>
    intro off st h0 h1 h2 h3
    have hsl := scan_len_total_eq fb H (by omega) hlen
    have hce := fragment_chunk_next fb H off h0 (by omega) hlen
    by_cases hc : (1380 : Int) > ((fb.buf.length - H - off : Nat) : Int)
    · rw [if_pos hc] at hce
      rw [fragment_loop_emit net fb H q k off st (by omega) (by rw [hce]; simp only []; omega), hce]
      simp only []
      rw [fragment_loop_stop _ _ _ _ _ _ _
        (Or.inl (by rw [hsl, to_size_t_of_range (by omega) (by omega)]; omega))]
      exact ⟨0, by simp [rtp_marker_build_packet]⟩
    · rw [if_neg hc] at hce
      rw [fragment_loop_emit net fb H q k off st (by omega) (by rw [hce]; simp only []; omega), hce]
      simp only []
      rw [to_size_t_of_range (by omega) (by omega)]
      obtain ⟨m, hm⟩ := ih ((off : Int) + 1380).toNat
        { st with global_seq := (st.global_seq + 1) % 65536,
                  sendto_calls := st.sendto_calls +
                    (send_rtp_packet_reliable net st.sendto_calls).attempts }
        (by omega) (by omega) (by omega) (by omega)
      refine ⟨m + 1, ?_⟩
      rw [List.map_cons, hm, rtp_marker_build_packet, List.replicate_succ, List.cons_append]

theorem markers_loop (net : Nat → SendtoResult) (fb : camera_fb_t) (H : Nat) (q : Int)
    (st : StreamState) (hlen : fb.buf.length < 2147483648) (hH : H < fb.buf.length)
    (h1 : H < 1380) (hfit : fb.buf.length % 1380 ≠ 0) :
    ∃ m, (fragment_loop net fb H q (fb.buf.length - H) 0 st).1.map (fun e => rtp_marker e.pkt) =
        List.replicate m false ++ [true] := by
  obtain ⟨k, hk⟩ : ∃ k, fb.buf.length - H = k + 1 := ⟨fb.buf.length - H - 1, by omega⟩
  have hsl := scan_len_total_eq fb H (by omega) hlen
  have hce := fragment_chunk_first fb H (by omega) hlen
  rw [hk]
  by_cases hc : (1380 : Int) - H > ((fb.buf.length - H : Nat) : Int)
  · rw [if_pos hc] at hce
    rw [fragment_loop_emit net fb H q k 0 st (by omega) (by rw [hce]; simp only []; omega), hce]
    simp only []
    rw [fragment_loop_stop _ _ _ _ _ _ _
      (Or.inl (by rw [hsl, to_size_t_of_range (by omega) (by omega)]; omega))]
    exact ⟨0, by simp [rtp_marker_build_packet]⟩
  · rw [if_neg hc] at hce
    rw [fragment_loop_emit net fb H q k 0 st (by omega) (by rw [hce]; simp only []; omega), hce]
    simp only []
    rw [to_size_t_of_range (by omega) (by omega)]
    obtain ⟨m, hm⟩ := markers_next_loop net fb H q hlen k (((0 : Nat) : Int) + (1380 - (H : Int))).toNat
      { st with global_seq := (st.global_seq + 1) % 65536,
                sendto_calls := st.sendto_calls +
                  (send_rtp_packet_reliable net st.sendto_calls).attempts }
      (by omega) (by omega) (by omega) (by omega)
    refine ⟨m + 1, ?_⟩
    rw [List.map_cons, hm, rtp_marker_build_packet, List.replicate_succ, List.cons_append]

/-- The bound on the iterations of the fragment loop is never what stops it: for a frame
in the range of `int`, started inside the scan data, any larger bound gives the same
packets and the same final state. -/
theorem fragment_loop_fuel (net : Nat → SendtoResult) (fb : camera_fb_t) (H : Nat) (q : Int)
    (hlen : fb.buf.length < 2147483648) (hH : H ≤ 1380) :
    ∀ (fuel off : Nat) (st : StreamState) (extra : Nat), H + off ≤ fb.buf.length →
      fb.buf.length - H - off ≤ fuel →
      fragment_loop net fb H q (fuel + extra) off st = fragment_loop net fb H q fuel off st := by
  intro fuel
  induction fuel with
  | zero =>
    intro off st extra h1 h2
    rw [fragment_loop_stop net fb H q (0 + extra) off st
      (Or.inl (by rw [scan_len_total_eq fb H (by omega) hlen]; omega))]
    rfl
  | succ k ih =>
    intro off st extra h1 h2
    by_cases h : off < scan_len_total fb H ∧ 0 < (fragment_chunk fb H off).1
    · rw [show k + 1 + extra = (k + extra) + 1 by omega,
        fragment_loop_emit net fb H q (k + extra) off st h.1 h.2,
        fragment_loop_emit net fb H q k off st h.1 h.2]
      have hsl := scan_len_total_eq fb H (by omega) hlen
      have hce := fragment_chunk_eq fb H off h1 hlen
      have hc1 : 0 < (fragment_chunk fb H off).1 := h.2
      have hc2 : (fragment_chunk fb H off).1 ≤ ((fb.buf.length - H - off : Nat) : Int) := by
        rw [hce]
        by_cases hgt : (if off = 0 then (1380 : Int) - H else 1380) >
            ((fb.buf.length - H - off : Nat) : Int)
        · rw [if_pos hgt]
        · rw [if_neg hgt]; exact Int.not_lt.1 hgt
      have hoff : to_size_t ((off : Int) + (fragment_chunk fb H off).1) =
          ((off : Int) + (fragment_chunk fb H off).1).toNat :=
        to_size_t_of_range (by omega) (by omega)
      rw [hoff, ih _ _ extra (by omega) (by omega)]
    · rw [fragment_loop_stop net fb H q (k + 1 + extra) off st (by omega),
        fragment_loop_stop net fb H q (k + 1) off st (by omega)]

theorem stream_frame_reject (cfg : Config) (net : Nat → SendtoResult) (fb : camera_fb_t)
    (st : StreamState)
    (h : find_sos fb.buf fb.len ≤ 0 ∨ find_sos fb.buf fb.len > max_payload) :
    (stream_frame cfg net fb st).1 = [] ∧
    (stream_frame cfg net fb st).2.global_seq = st.global_seq ∧
    (stream_frame cfg net fb st).2.global_timestamp = st.global_timestamp := by
  unfold stream_frame
  by_cases h0 : find_sos fb.buf fb.len ≤ 0
  · simp only [h0, if_true, and_self]
  · have h1 : find_sos fb.buf fb.len > max_payload := by tauto
    simp only [h0, if_false, h1, if_true, and_self]

theorem stream_frame_accept (cfg : Config) (net : Nat → SendtoResult) (fb : camera_fb_t)
    (st : StreamState)
    (h0 : 0 < find_sos fb.buf fb.len) (h1 : find_sos fb.buf fb.len ≤ max_payload) :
    ∃ (q : Int) (st0 : StreamState),
      st0.global_seq = st.global_seq ∧ st0.global_timestamp = st.global_timestamp ∧
      (stream_frame cfg net fb st).1 =
        (fragment_loop net fb (find_sos fb.buf fb.len) q
          (scan_len_total fb (find_sos fb.buf fb.len)) 0 st0).1 ∧
      (stream_frame cfg net fb st).2.global_seq =
        (fragment_loop net fb (find_sos fb.buf fb.len) q
          (scan_len_total fb (find_sos fb.buf fb.len)) 0 st0).2.global_seq ∧
      (stream_frame cfg net fb st).2.global_timestamp =
        ((fragment_loop net fb (find_sos fb.buf fb.len) q
          (scan_len_total fb (find_sos fb.buf fb.len)) 0 st0).2.global_timestamp
            + 90000 / cfg.fps) % 4294967296 := by
  unfold stream_frame
  simp only []
  rw [if_neg (by omega), if_neg (by omega)]
  exact ⟨if (check_and_log_dqt_once fb.buf (find_sos fb.buf fb.len).toNat st.dqt_logged).1 ≠ 0
      then 255 else 0,
    { st with dqt_logged :=
        (check_and_log_dqt_once fb.buf (find_sos fb.buf fb.len).toNat st.dqt_logged).2 },
    rfl, rfl, rfl, rfl, rfl⟩

theorem stream_frame_counters (cfg : Config) (net : Nat → SendtoResult) (fb : camera_fb_t)
    (st : StreamState) (hs : st.global_seq < 65536) :
    (stream_frame cfg net fb st).1.map (fun e => rtp_seq e.pkt) =
        consecutive_seqs st.global_seq (stream_frame cfg net fb st).1.length ∧
    (stream_frame cfg net fb st).2.global_seq =
        (st.global_seq + (stream_frame cfg net fb st).1.length) % 65536 ∧
    (∀ e ∈ (stream_frame cfg net fb st).1,
        rtp_timestamp e.pkt = st.global_timestamp % 4294967296) ∧
    (stream_frame cfg net fb st).2.global_timestamp =
      if 0 < find_sos fb.buf fb.len ∧ find_sos fb.buf fb.len ≤ max_payload
      then (st.global_timestamp + 90000 / cfg.fps) % 4294967296 else st.global_timestamp := by
  by_cases h : 0 < find_sos fb.buf fb.len ∧ find_sos fb.buf fb.len ≤ max_payload
  · obtain ⟨q, st0, e1, e2, e3, e4, e5⟩ := stream_frame_accept cfg net fb st h.1 h.2
    obtain ⟨c1, c2, c3, c4, _, _⟩ := fragment_loop_counters net fb (find_sos fb.buf fb.len) q
      (scan_len_total fb (find_sos fb.buf fb.len)) 0 st0 (by omega)
    rw [e3, e4, e5, if_pos h, c4, ← e1, ← e2]
    exact ⟨c1, c2, c3, rfl⟩
  · obtain ⟨r1, r2, r3⟩ := stream_frame_reject cfg net fb st (by omega)
    rw [r1, r2, r3, if_neg h]
    simp only [consecutive_seqs, List.map_nil, List.length_nil, List.range_zero,
      Nat.add_zero, List.not_mem_nil, false_implies, implies_true, and_true, true_and]
    omega

theorem streaming_loop_counters (cfg : Config) (net : Nat → SendtoResult) :
    ∀ (cycles : List CycleInput) (st : StreamState), st.global_seq < 65536 →
      (streaming_loop cfg net cycles st).1.map (fun e => rtp_seq e.pkt) =
          consecutive_seqs st.global_seq (streaming_loop cfg net cycles st).1.length ∧
      (streaming_loop cfg net cycles st).2.1.global_seq =
          (st.global_seq + (streaming_loop cfg net cycles st).1.length) % 65536 := by
  intro cycles
  induction cycles with
  | nil =>
    intro st hs
    simp only [streaming_loop, consecutive_seqs, List.map_nil, List.length_nil, List.range_zero,
      Nat.add_zero, true_and]
    omega
  | cons c rest ih =>
    intro st hs
    cases c with
    | disconnected =>
      simp only [streaming_loop, consecutive_seqs, List.map_nil, List.length_nil, List.range_zero,
        Nat.add_zero, true_and]
      omega
    | no_frame =>
      simp only [streaming_loop]
      exact ih st hs
    | frame fb =>
      simp only [streaming_loop]
      obtain ⟨f1, f2, _, _⟩ := stream_frame_counters cfg net fb st hs
      obtain ⟨i1, i2⟩ := ih (stream_frame cfg net fb st).2 (by rw [f2]; exact Nat.mod_lt _ (by decide))
      rw [List.map_append, List.length_append, consecutive_seqs_append, f1, i1, i2, f2]
      refine ⟨rfl, ?_⟩
      omega

theorem stream_frame_markers (cfg : Config) (net : Nat → SendtoResult)
    (fb : camera_fb_t) (st : StreamState) (hlen : fb.len < 4294967296)
    (h0 : 0 < find_sos fb.buf fb.len) (h1 : find_sos fb.buf fb.len ≤ max_payload) :
    (find_sos fb.buf fb.len = fb.len ∨ find_sos fb.buf fb.len = max_payload →
      (stream_frame cfg net fb st).1 = []) ∧
    (find_sos fb.buf fb.len < fb.len → find_sos fb.buf fb.len < max_payload →
      (fb.len : Int) % max_payload ≠ 0 →
      ∃ m, (stream_frame cfg net fb st).1.map (fun e => rtp_marker e.pkt) =
        List.replicate m false ++ [true]) := by
  obtain ⟨q, st0, _, _, e3, _, _⟩ := stream_frame_accept cfg net fb st h0 h1
  have e : fb.len = fb.buf.length := rfl
  rw [e] at hlen h0 h1 e3 ⊢
  obtain ⟨hr4, hrl, hl31⟩ := find_sos_range fb.buf fb.buf.length hlen h0
  obtain ⟨H, hH⟩ : ∃ H : Nat, find_sos fb.buf fb.buf.length = (H : Int) :=
    ⟨(find_sos fb.buf fb.buf.length).toNat, by omega⟩
  rw [max_payload_eq] at h1 ⊢
  rw [e3, hH, scan_len_total_eq fb H (by omega) hl31]
  rw [hH] at h1 hrl
  constructor
  · intro hz
    rw [fragment_loop_stop]
    rw [scan_len_total_eq fb H (by omega) hl31, fragment_chunk_first fb H (by omega) hl31]
    by_cases hc : (1380 : Int) - H > ((fb.buf.length - H : Nat) : Int)
    · rw [if_pos hc]; simp only []; omega
    · rw [if_neg hc]; simp only []; omega
  · intro a b c
    exact markers_loop net fb H q st0 hl31 (by omega) (by omega) (by omega)

theorem fragment_loop_timestamps (net : Nat → SendtoResult) (fb : camera_fb_t) (hl q : Int) :
    ∀ (fuel off : Nat) (st : StreamState),
      (∀ e ∈ (fragment_loop net fb hl q fuel off st).1,
          rtp_timestamp e.pkt = st.global_timestamp % 4294967296) ∧
      (fragment_loop net fb hl q fuel off st).2.global_timestamp = st.global_timestamp := by
  intro fuel
  induction fuel with
  | zero => intro off st; simp [fragment_loop]
  | succ k ih =>
    intro off st
    by_cases h : off < scan_len_total fb hl ∧ 0 < (fragment_chunk fb hl off).1
    · rw [fragment_loop_emit net fb hl q k off st h.1 h.2]
      obtain ⟨h3, h4⟩ := ih (to_size_t ((off : Int) + (fragment_chunk fb hl off).1))
        { st with global_seq := (st.global_seq + 1) % 65536,
                  sendto_calls := st.sendto_calls +
                    (send_rtp_packet_reliable net st.sendto_calls).attempts }
      refine ⟨?_, h4⟩
      intro e he
      rcases List.mem_cons.1 he with h | h
      · rw [h, rtp_timestamp_build_packet]
      · exact h3 e h
    · rw [fragment_loop_stop net fb hl q (k + 1) off st (by omega)]
      simp

theorem stream_frame_timestamps (cfg : Config) (net : Nat → SendtoResult) (fb : camera_fb_t)
    (st : StreamState) :
    (∀ e ∈ (stream_frame cfg net fb st).1,
        rtp_timestamp e.pkt = st.global_timestamp % 4294967296) ∧
    (stream_frame cfg net fb st).2.global_timestamp =
      if 0 < find_sos fb.buf fb.len ∧ find_sos fb.buf fb.len ≤ max_payload
      then (st.global_timestamp + 90000 / cfg.fps) % 4294967296 else st.global_timestamp := by
  by_cases h : 0 < find_sos fb.buf fb.len ∧ find_sos fb.buf fb.len ≤ max_payload
  · obtain ⟨q, st0, e1, e2, e3, e4, e5⟩ := stream_frame_accept cfg net fb st h.1 h.2
    obtain ⟨c3, c4⟩ := fragment_loop_timestamps net fb (find_sos fb.buf fb.len) q
      (scan_len_total fb (find_sos fb.buf fb.len)) 0 st0
    rw [e3, e5, if_pos h, c4, ← e2]
    exact ⟨c3, rfl⟩
  · obtain ⟨r1, r2, r3⟩ := stream_frame_reject cfg net fb st (by omega)
    rw [r1, r3, if_neg h]
    simp

/-! ## The handshake -/

theorem handle_request_counters (cfg : Config) (conn : Conn) (req : List Char) (ok : Bool)
    (s : Session) (h : s.streaming = true → s.global_seq = 0 ∧ s.global_timestamp = 0) :
    (handle_request cfg conn req ok s).session.streaming = true →
      (handle_request cfg conn req ok s).session.global_seq = 0 ∧
      (handle_request cfg conn req ok s).session.global_timestamp = 0 := by
  unfold handle_request
  cases hd : dispatch req <;> simp only [] <;> try exact h
  · split <;> exact h
  · intro _; exact ⟨trivial, trivial⟩

theorem handshake_loop_request (cfg : Config) (conn : Conn) (text : List Char) (ok : Bool)
    (rest : List Recv) (s : Session) :
    handshake_loop cfg conn (Recv.request text ok :: rest) s =
      if s.streaming then ([], s)
      else if (handle_request cfg conn text ok s).stop then
        ([(handle_request cfg conn text ok s).reply], (handle_request cfg conn text ok s).session)
      else
        ((handle_request cfg conn text ok s).reply ::
          (handshake_loop cfg conn rest (handle_request cfg conn text ok s).session).1,
         (handshake_loop cfg conn rest (handle_request cfg conn text ok s).session).2) := by
  rw [handshake_loop]

theorem handshake_loop_counters (cfg : Config) (conn : Conn) :
    ∀ (inputs : List Recv) (s : Session),
      (s.streaming = true → s.global_seq = 0 ∧ s.global_timestamp = 0) →
      (handshake_loop cfg conn inputs s).2.streaming = true →
        (handshake_loop cfg conn inputs s).2.global_seq = 0 ∧
        (handshake_loop cfg conn inputs s).2.global_timestamp = 0 := by
  intro inputs
  induction inputs with
  | nil => intro s h; exact h
  | cons r rest ih =>
    intro s h
    cases r with
    | closed => exact h
    | request text ok =>
      rw [handshake_loop_request]
      have h2 := handle_request_counters cfg conn text ok s h
      by_cases hs : s.streaming = true
      · rw [if_pos hs]; exact h
      · rw [if_neg hs]
        by_cases ht : (handle_request cfg conn text ok s).stop = true
        · rw [if_pos ht]; exact h2
        · rw [if_neg ht]; exact ih _ h2

theorem handle_request_port (cfg : Config) (conn : Conn) (req : List Char) (ok : Bool)
    (s : Session) :
    0 < (handle_request cfg conn req ok s).session.rtp_client_port →
      0 < s.rtp_client_port ∨ setup_accepted req := by
  unfold handle_request
  cases hd : dispatch req <;> simp only [] <;> try exact Or.inl
  split
  · rename_i hp
    intro _
    right
    refine ⟨hd, ?_⟩
    cases hq : parse_client_port req with
    | none => rw [hq] at hp; simp at hp
    | some p => rw [hq] at hp; exact ⟨p, rfl, hp.2⟩
  · exact Or.inl

theorem handshake_loop_port (cfg : Config) (conn : Conn) :
    ∀ (inputs : List Recv) (s : Session),
      0 < (handshake_loop cfg conn inputs s).2.rtp_client_port →
        0 < s.rtp_client_port ∨
        ∃ text ok, Recv.request text ok ∈ inputs ∧ setup_accepted text := by
  intro inputs
  induction inputs with
  | nil => intro s h; exact Or.inl h
  | cons r rest ih =>
    intro s
    cases r with
    | closed => exact Or.inl
    | request text ok =>
      rw [handshake_loop_request]
      by_cases hs : s.streaming = true
      · rw [if_pos hs]; exact Or.inl
      · rw [if_neg hs]
        have key : 0 < (handle_request cfg conn text ok s).session.rtp_client_port →
            0 < s.rtp_client_port ∨
            ∃ t o, Recv.request t o ∈ Recv.request text ok :: rest ∧ setup_accepted t := by
          intro h
          rcases handle_request_port cfg conn text ok s h with h1 | h1
          · exact Or.inl h1
          · exact Or.inr ⟨text, ok, List.mem_cons_self _ _, h1⟩
        by_cases ht : (handle_request cfg conn text ok s).stop = true
        · rw [if_pos ht]; exact key
        · rw [if_neg ht]
          intro h
          rcases ih _ h with h1 | ⟨t, o, hm, ha⟩
          · exact key h1
          · exact Or.inr ⟨t, o, List.mem_cons_of_mem _ hm, ha⟩

/-! ## Texts of the handshake -/

theorem fmt_d_natCast (n : Nat) : fmt_d (n : Int) = Nat.toDigits 10 n := by
  unfold fmt_d
  rw [if_neg (by omega), Int.toNat_ofNat]

theorem fmt_08X_ssrc : fmt_08X RTP_SSRC = "CAFEBABE".toList := by decide

theorem skip_spaces_eq (p : List Char) : skip_spaces p = p.dropWhile (fun c => c = ' ') := by
  induction p with
  | nil => rfl
  | cons c p ih =>
    rw [skip_spaces]
    by_cases h : c = ' '
    · rw [if_pos h, ih, List.dropWhile_cons_of_pos (by simpa using h)]
    · rw [if_neg h, List.dropWhile_cons_of_neg (by simpa using h)]

theorem copy_cseq_eq (len : Nat) : ∀ (p : List Char) (i : Nat),
    copy_cseq len p i =
      (p.takeWhile (fun c => c ≠ '\r' ∧ c ≠ '\n')).take (len - 1 - i) := by
  intro p
  induction p with
  | nil => intro i; simp [copy_cseq]
  | cons c p ih =>
    intro i
    rw [copy_cseq]
    by_cases h : c ≠ '\r' ∧ c ≠ '\n'
    · rw [List.takeWhile_cons_of_pos (by simpa using h)]
      by_cases hi : i + 1 < len
      · rw [if_pos ⟨h.1, h.2, hi⟩, ih]
        obtain ⟨k, hk⟩ : ∃ k, len - 1 - i = k + 1 := ⟨len - 1 - i - 1, by omega⟩
        rw [hk, List.take_succ_cons, show len - 1 - (i + 1) = k by omega]
      · rw [if_neg (by tauto), show len - 1 - i = 0 by omega, List.take_zero]
    · rw [if_neg (by tauto), List.takeWhile_cons_of_neg (by simpa using h), List.take_nil]

/-- The string that the replies echo: `"1"` when the request has no `CSeq:`, else the
first 31 characters of its CSeq value. -/
theorem request_cseq_eq (req : List Char) :
    request_cseq req = match cseq_value req with
      | none => "1".toList
      | some v => v.take 31 := by
  unfold request_cseq get_cseq cseq_value
  cases strstr req "CSeq:".toList with
  | none => rfl
  | some p =>
    simp only [Option.map_some']
    rw [copy_cseq_eq, skip_spaces_eq]

theorem dispatch_unknown (req : List Char)
    (h1 : strstr req "OPTIONS ".toList = none) (h2 : strstr req "DESCRIBE ".toList = none)
    (h3 : strstr req "SETUP ".toList = none) (h4 : strstr req "PLAY ".toList = none)
    (h5 : strstr req "TEARDOWN ".toList = none) : dispatch req = Method.unknown := by
  unfold dispatch
  rw [h1, h2, h3, h4, h5]
  rfl

theorem dispatch_setup (req : List Char)
    (h1 : strstr req "OPTIONS ".toList = none) (h2 : strstr req "DESCRIBE ".toList = none)
    (h3 : strstr req "SETUP ".toList ≠ none) : dispatch req = Method.setup := by
  unfold dispatch
  rw [h1, h2]
  cases h : strstr req "SETUP ".toList with
  | none => exact absurd h h3
  | some v => rfl

theorem dispatch_play (req : List Char)
    (h1 : strstr req "OPTIONS ".toList = none) (h2 : strstr req "DESCRIBE ".toList = none)
    (h3 : strstr req "SETUP ".toList = none) (h4 : strstr req "PLAY ".toList ≠ none) :
    dispatch req = Method.play := by
  unfold dispatch
  rw [h1, h2, h3]
  cases h : strstr req "PLAY ".toList with
  | none => exact absurd h h4
  | some v => rfl

theorem isDigit_not_special (c : Char) (h : c.isDigit = true) :
    c ≠ '-' ∧ c ≠ '+' ∧ is_space c = false := by
  refine ⟨?_, ?_, ?_⟩
  · intro e; rw [e] at h; exact absurd h (by decide)
  · intro e; rw [e] at h; exact absurd h (by decide)
  · unfold is_space
    simp only [Bool.or_eq_false_iff, decide_eq_false_iff_not]
    refine ⟨⟨⟨⟨⟨?_, ?_⟩, ?_⟩, ?_⟩, ?_⟩, ?_⟩ <;>
      (intro e; rw [e] at h; exact absurd h (by decide))

theorem scan_digits_append (digits tail : List Char) (hd : ∀ c ∈ digits, c.isDigit = true)
    (ht : ∀ c ∈ tail.head?, c.isDigit = false) :
    ∀ acc, scan_digits acc (digits ++ tail) =
      digits.foldl (fun a c => a * 10 + (c.toNat - 48)) acc := by
  induction digits with
  | nil =>
    intro acc
    cases tail with
    | nil => rfl
    | cons c t =>
      have := ht c (by simp)
      simp [scan_digits, this]
  | cons d ds ih =>
    intro acc
    rw [List.cons_append, scan_digits, if_pos (hd d (List.mem_cons_self _ _)), List.foldl_cons]
    exact ih (fun c hc => hd c (List.mem_cons_of_mem _ hc)) _

theorem sscanf_d_digits (digits tail : List Char) (hne : digits ≠ [])
    (hd : ∀ c ∈ digits, c.isDigit = true) (ht : ∀ c ∈ tail.head?, c.isDigit = false) :
    sscanf_d (digits ++ tail) = some (decimal_value digits : Int) := by
  cases digits with
  | nil => exact absurd rfl hne
  | cons d ds =>
    have hdd := hd d (List.mem_cons_self _ _)
    obtain ⟨n1, n2, n3⟩ := isDigit_not_special d hdd
    unfold sscanf_d
    rw [List.cons_append, skip_white, n3]
    simp only [Bool.false_eq_true, if_false]
    rw [if_neg n1, if_neg n2, if_pos hdd, ← List.cons_append, scan_digits_append _ _ hd ht]
    rfl

/-! # The claims -/

/-- C1, as amended. For every frame of less than 2^32 bytes that the fragmenter accepts
(`0 < h <= max_payload`, `h = find_sos(buf, len)`), the scan-data payloads of the packets
of the frame (each packet minus its 12-byte RTP header, its 8-byte JPEG header and, in the
first packet, the `h` header bytes), concatenated in send order, are exactly the bytes
`buf[h .. len)` when `h < max_payload`; when `h = max_payload` the first chunk is empty
and no packet is emitted. -/
theorem fragments_reassemble_scan_data (cfg : Config) (net : Nat → SendtoResult)
    (fb : camera_fb_t) (st : StreamState) (hlen : fb.len < 4294967296)
    (h0 : 0 < find_sos fb.buf fb.len) (h1 : find_sos fb.buf fb.len ≤ max_payload) :
    scan_bytes (find_sos fb.buf fb.len).toNat (stream_frame cfg net fb st).1 =
      if find_sos fb.buf fb.len < max_payload
      then fb.buf.drop (find_sos fb.buf fb.len).toNat else [] :=
  stream_frame_scan_bytes cfg net fb st hlen h0 h1

/-- Witness of C1: a 9-byte frame with a 6-byte header prefix. -/
theorem fragments_reassemble_scan_data_witness :
    ((⟨[0xFF, 0xD8, 0xFF, 0xDA, 0, 8, 1, 2, 3], 320, 240⟩ : camera_fb_t).len < 4294967296 ∧
      0 < find_sos [0xFF, 0xD8, 0xFF, 0xDA, 0, 8, 1, 2, 3] 9 ∧
      find_sos [0xFF, 0xD8, 0xFF, 0xDA, 0, 8, 1, 2, 3] 9 ≤ max_payload) ∧
    scan_bytes (find_sos [0xFF, 0xD8, 0xFF, 0xDA, 0, 8, 1, 2, 3] 9).toNat
      (stream_frame ⟨8554, 15⟩ (fun _ => SendtoResult.sent)
        ⟨[0xFF, 0xD8, 0xFF, 0xDA, 0, 8, 1, 2, 3], 320, 240⟩ ⟨0, 0, false, 0, 0⟩).1 =
      if find_sos [0xFF, 0xD8, 0xFF, 0xDA, 0, 8, 1, 2, 3] 9 < max_payload
      then [0xFF, 0xD8, 0xFF, 0xDA, 0, 8, 1, 2, 3].drop
        (find_sos [0xFF, 0xD8, 0xFF, 0xDA, 0, 8, 1, 2, 3] 9).toNat else [] :=
  ⟨⟨by decide, by decide, by decide⟩,
   fragments_reassemble_scan_data ⟨8554, 15⟩ (fun _ => SendtoResult.sent)
     ⟨[0xFF, 0xD8, 0xFF, 0xDA, 0, 8, 1, 2, 3], 320, 240⟩ ⟨0, 0, false, 0, 0⟩
     (by decide) (by decide) (by decide)⟩

/-- Counterexample to C1 as stated: a frame of 1381 bytes whose header prefix has exactly
`max_payload = 1380` bytes is accepted (`0 < h <= 1380`), no packet is emitted for it, and
its scan byte `0x55` is in no payload. -/
theorem header_prefix_of_max_payload_loses_scan_data :
    find_sos (padded_frame 1376 [0x55]).buf (padded_frame 1376 [0x55]).len = 1380 ∧
    (1380 : Int) ≤ max_payload ∧
    (stream_frame ⟨8554, 15⟩ (fun _ => SendtoResult.sent) (padded_frame 1376 [0x55])
      ⟨0, 0, false, 0, 0⟩).1 = [] ∧
    (padded_frame 1376 [0x55]).buf.drop 1380 = [0x55] ∧
    scan_bytes 1380 (stream_frame ⟨8554, 15⟩ (fun _ => SendtoResult.sent)
      (padded_frame 1376 [0x55]) ⟨0, 0, false, 0, 0⟩).1 ≠
      (padded_frame 1376 [0x55]).buf.drop 1380 := by
  have hf : find_sos (padded_frame 1376 [0x55]).buf (padded_frame 1376 [0x55]).len = 1380 :=
    find_sos_padded_frame 1376 [0x55] (by decide)
  have hl : (padded_frame 1376 [0x55]).len < 4294967296 := by
    unfold camera_fb_t.len; rw [length_padded_frame]; decide
  have hs := (stream_frame_markers ⟨8554, 15⟩ (fun _ => SendtoResult.sent)
    (padded_frame 1376 [0x55]) ⟨0, 0, false, 0, 0⟩ hl (by rw [hf]; decide)
    (by rw [hf]; decide)).1 (Or.inr (by rw [hf]; decide))
  have hd : (padded_frame 1376 [0x55]).buf.drop 1380 = [0x55] :=
    drop_padded_frame 1376 [0x55]
  refine ⟨hf, by decide, hs, hd, ?_⟩
  rw [hs, hd]
  decide

/-- The test that sets `last_pkt` is the strict `chunk > remaining`, so a frame whose scan
data ends exactly at a packet boundary gets no marker at all; here for the frames of
1380 bytes, sent as one packet of 1400 bytes with the marker bit clear. -/
theorem exact_fit_frame_has_no_marker (cfg : Config) (net : Nat → SendtoResult)
    (fb : camera_fb_t) (st : StreamState) (hlen : fb.len = 1380)
    (h0 : 0 < find_sos fb.buf fb.len) (h1 : find_sos fb.buf fb.len < max_payload) :
    (stream_frame cfg net fb st).1.map (fun e => rtp_marker e.pkt) = [false] := by
  obtain ⟨q, st0, _, _, e3, _, _⟩ := stream_frame_accept cfg net fb st h0 (by omega)
  have e : fb.len = fb.buf.length := rfl
  rw [e] at hlen h0 h1 e3
  obtain ⟨hr4, hrl, hl31⟩ := find_sos_range fb.buf fb.buf.length (by omega) h0
  obtain ⟨H, hH⟩ : ∃ H : Nat, find_sos fb.buf fb.buf.length = (H : Int) :=
    ⟨(find_sos fb.buf fb.buf.length).toNat, by omega⟩
  rw [max_payload_eq] at h1
  rw [e3, hH, scan_len_total_eq fb H (by omega) hl31]
  rw [hH] at h1 hrl
  have hsl := scan_len_total_eq fb H (by omega) hl31
  have hce := fragment_chunk_first fb H (by omega) hl31
  rw [if_neg (by omega)] at hce
  obtain ⟨k, hk⟩ : ∃ k, fb.buf.length - H = k + 1 := ⟨fb.buf.length - H - 1, by omega⟩
  rw [hk, fragment_loop_emit net fb H q k 0 st0 (by omega) (by rw [hce]; simp only []; omega), hce]
  simp only []
  rw [fragment_loop_stop _ _ _ _ _ _ _
    (Or.inl (by rw [hsl, to_size_t_of_range (by omega) (by omega)]; omega))]
  simp [rtp_marker_build_packet]

/-- A JPEG frame that starts with SOI and has its SOS marker right after it: the header
prefix has 6 bytes, whatever the scan data. -/
theorem find_sos_soi_sos_frame (scan : List Nat) (hn : 6 + scan.length < 2147483648) :
    find_sos ([0xFF, 0xD8, 0xFF, 0xDA, 0, 8] ++ scan) (6 + scan.length) = 6 := by
  unfold find_sos
  have h := find_sos_loop_at ([0xFF, 0xD8, 0xFF, 0xDA, 0, 8] ++ scan) (6 + scan.length) 2
    (by rw [to_int_of_range] <;> omega) ⟨by simp, by simp⟩
    (by
      intro j hj
      have hj2 : j = 0 ∨ j = 1 := by omega
      rcases hj2 with rfl | rfl
      · simp
      · simp)
    (6 + scan.length) 0 (by omega) (by omega)
  rw [h]; rfl

/-- C2 fails on the code. The JPEG frame of 1380 bytes `FF D8 FF DA 00 08` followed by
1374 scan bytes is accepted by the fragmenter (`h = 6`, `0 < h <= 1380`) and sent as one
packet, whose marker bit is clear: the first chunk, `1380 - 6 = 1374`, equals the remaining
scan bytes, the strict test `chunk > remaining` is false and `last_pkt` stays false. No
packet of the frame has the marker, where the claim says that the last one has it. -/
theorem exact_fit_frame_is_sent_without_marker :
    find_sos ([0xFF, 0xD8, 0xFF, 0xDA, 0, 8] ++ List.replicate 1374 0x55) 1380 = 6 ∧
    (6 : Int) ≤ max_payload ∧
    (stream_frame ⟨8554, 15⟩ (fun _ => SendtoResult.sent)
      ⟨[0xFF, 0xD8, 0xFF, 0xDA, 0, 8] ++ List.replicate 1374 0x55, 320, 240⟩
      ⟨0, 0, false, 0, 0⟩).1.map (fun e => rtp_marker e.pkt) = [false] := by
  have hl : (⟨[0xFF, 0xD8, 0xFF, 0xDA, 0, 8] ++ List.replicate 1374 0x55, 320, 240⟩ :
      camera_fb_t).len = 1380 := by
    unfold camera_fb_t.len
    rw [List.length_append, List.length_replicate]
    rfl
  have hf : find_sos ([0xFF, 0xD8, 0xFF, 0xDA, 0, 8] ++ List.replicate 1374 0x55) 1380 = 6 := by
    have h := find_sos_soi_sos_frame (List.replicate 1374 0x55)
      (by rw [List.length_replicate]; decide)
    rw [List.length_replicate] at h
    exact h
  refine ⟨hf, by decide, ?_⟩
  refine exact_fit_frame_has_no_marker _ _ _ _ hl ?_ ?_
  · rw [hl]; simp only []; rw [hf]; decide
  · rw [hl]; simp only []; rw [hf]; decide

/-- Where the marker does work. For every frame of less than 2^32 bytes accepted by the
fragmenter (`0 < h <= 1380`): when the scan data is empty (`h = len`) or the header prefix
fills the payload (`h = 1380`) no packet is emitted; when `h < len`, `h < 1380` and the scan
data does not end exactly at a packet boundary (`len` is not a multiple of 1380), exactly
one of the packets emitted has the marker bit set, and it is the last one. -/
theorem marker_on_last_fragment (cfg : Config) (net : Nat → SendtoResult)
    (fb : camera_fb_t) (st : StreamState) (hlen : fb.len < 4294967296)
    (h0 : 0 < find_sos fb.buf fb.len) (h1 : find_sos fb.buf fb.len ≤ max_payload) :
    (find_sos fb.buf fb.len = fb.len ∨ find_sos fb.buf fb.len = max_payload →
      (stream_frame cfg net fb st).1 = []) ∧
    (find_sos fb.buf fb.len < fb.len → find_sos fb.buf fb.len < max_payload →
      (fb.len : Int) % max_payload ≠ 0 →
      ∃ m, (stream_frame cfg net fb st).1.map (fun e => rtp_marker e.pkt) =
        List.replicate m false ++ [true]) :=
  stream_frame_markers cfg net fb st hlen h0 h1

/-- A frame with the marker on its last packet: 9 bytes, a 6-byte header prefix and
3 scan bytes. -/
theorem marker_on_last_fragment_witness :
    ∃ m, (stream_frame ⟨8554, 15⟩ (fun _ => SendtoResult.sent)
        ⟨[0xFF, 0xD8, 0xFF, 0xDA, 0, 8, 1, 2, 3], 320, 240⟩ ⟨0, 0, false, 0, 0⟩).1.map
          (fun e => rtp_marker e.pkt) = List.replicate m false ++ [true] :=
  (marker_on_last_fragment ⟨8554, 15⟩ (fun _ => SendtoResult.sent)
    ⟨[0xFF, 0xD8, 0xFF, 0xDA, 0, 8, 1, 2, 3], 320, 240⟩ ⟨0, 0, false, 0, 0⟩
    (by decide) (by decide) (by decide)).2 (by decide) (by decide) (by decide)

/-- A frame without scan data: the 4-byte frame `FF DA 00 0C` is accepted by the
fragmenter (`h = 4`), no packet is emitted for it, so no packet carries the marker. -/
theorem frame_without_scan_data_has_no_marker :
    0 < find_sos [0xFF, 0xDA, 0, 12] 4 ∧ find_sos [0xFF, 0xDA, 0, 12] 4 ≤ max_payload ∧
    ((stream_frame ⟨8554, 15⟩ (fun _ => SendtoResult.sent) ⟨[0xFF, 0xDA, 0, 12], 320, 240⟩
        ⟨0, 0, false, 0, 0⟩).1.filter (fun e => rtp_marker e.pkt)).length ≠ 1 := by
  decide

theorem client_session_seqs (cfg : Config) (conn : Conn) (net : Nat → SendtoResult)
    (inputs : List Recv) (cycles : List CycleInput) (seq0 ts0 : Nat) :
    (client_session cfg conn net inputs cycles seq0 ts0).packets.map (fun e => rtp_seq e.pkt) =
      consecutive_seqs 0 (client_session cfg conn net inputs cycles seq0 ts0).packets.length := by
  unfold client_session
  simp only []
  split
  · rename_i h
    have hc := handshake_loop_counters cfg conn inputs
      { streaming := false, client_rtp_port := 0, rtp_client_port := 0,
        global_seq := seq0, global_timestamp := ts0 } (by simp) h.1
    simp only []
    have hl := (streaming_loop_counters cfg net cycles
      { global_seq := (handshake_loop cfg conn inputs
          { streaming := false, client_rtp_port := 0, rtp_client_port := 0,
            global_seq := seq0, global_timestamp := ts0 }).2.global_seq,
        global_timestamp := (handshake_loop cfg conn inputs
          { streaming := false, client_rtp_port := 0, rtp_client_port := 0,
            global_seq := seq0, global_timestamp := ts0 }).2.global_timestamp,
        dqt_logged := false, sendto_calls := 0, frame_count := 0 }
      (by simp only [hc.1]; decide)).1
    rw [hl]
    simp only [hc.1]
  · simp [consecutive_seqs]

/-- C3, as amended. In every client session the sequence numbers carried by the RTP
packets handed to the sender, in the order in which they are built, are 0, 1, 2, ...
modulo 65536, also across frame boundaries: the counter is set to 0 at PLAY, incremented
by one for every packet passed to `send_rtp_packet_reliable` whether or not the send
succeeds, and wraps from 65535 to 0. (A packet that the sender drops keeps its number, so
the numbers of the packets that reach the client can differ by more than 1.) -/
theorem sequence_numbers_consecutive (cfg : Config) (conn : Conn) (net : Nat → SendtoResult)
    (inputs : List Recv) (cycles : List CycleInput) (seq0 ts0 : Nat) :
    (client_session cfg conn net inputs cycles seq0 ts0).packets.map (fun e => rtp_seq e.pkt) =
      consecutive_seqs 0 (client_session cfg conn net inputs cycles seq0 ts0).packets.length :=
  client_session_seqs cfg conn net inputs cycles seq0 ts0

/-- Counterexample to C3 as stated: after SETUP and PLAY three one-packet frames are sent
and the second `sendto` fails with an error other than ENOBUFS; the two packets that reach
the client carry the sequence numbers 0 and 2. -/
theorem dropped_packet_skips_sequence_number :
    ((client_session ⟨8554, 15⟩ ⟨"192.168.4.2".toList, 50000, none⟩
        (fun n => if n = 1 then SendtoResult.error else SendtoResult.sent)
        [Recv.request ("SETUP rtsp://192.168.4.1:8554/track1 RTSP/1.0\r\nCSeq: 3\r\n"
            ++ "Transport: RTP/AVP;unicast;client_port=5000-5001\r\n\r\n").toList true,
         Recv.request "PLAY rtsp://192.168.4.1:8554/ RTSP/1.0\r\nCSeq: 4\r\n\r\n".toList true]
        [CycleInput.frame ⟨[0xFF, 0xDA, 0, 12, 1], 320, 240⟩,
         CycleInput.frame ⟨[0xFF, 0xDA, 0, 12, 2], 320, 240⟩,
         CycleInput.frame ⟨[0xFF, 0xDA, 0, 12, 3], 320, 240⟩] 0 0).packets.filter
      (fun e => e.delivered)).map (fun e => rtp_seq e.pkt) = [0, 2] := by
  decide

/-- C4, as amended. For every frame that the streaming loop accepts (`0 < h <= 1380`) all
RTP packets of the frame carry the same timestamp, the value of the counter before the
frame, and after the frame the counter has advanced by `90000 / FPS` modulo 2^32,
whatever the number of fragments; a frame that the loop rejects (`h <= 0` or `h > 1380`)
produces no packet and leaves the counter as it was. -/
theorem timestamp_advances_once_per_frame (cfg : Config) (net : Nat → SendtoResult)
    (fb : camera_fb_t) (st : StreamState) (hts : st.global_timestamp < 4294967296) :
    (∀ e ∈ (stream_frame cfg net fb st).1, rtp_timestamp e.pkt = st.global_timestamp) ∧
    (stream_frame cfg net fb st).2.global_timestamp =
      (if 0 < find_sos fb.buf fb.len ∧ find_sos fb.buf fb.len ≤ max_payload
       then (st.global_timestamp + 90000 / cfg.fps) % 4294967296
       else st.global_timestamp) ∧
    (¬ (0 < find_sos fb.buf fb.len ∧ find_sos fb.buf fb.len ≤ max_payload) →
      (stream_frame cfg net fb st).1 = []) := by
  obtain ⟨c3, c4⟩ := stream_frame_timestamps cfg net fb st
  refine ⟨fun e he => ?_, c4, fun hr => (stream_frame_reject cfg net fb st (by omega)).1⟩
  rw [c3 e he, Nat.mod_eq_of_lt hts]

/-- Witness of C4: a one-fragment frame sent at timestamp 12000 with 15 frames per
second. -/
theorem timestamp_advances_once_per_frame_witness :
    (12000 : Nat) < 4294967296 ∧
    (stream_frame ⟨8554, 15⟩ (fun _ => SendtoResult.sent)
      ⟨[0xFF, 0xD8, 0xFF, 0xDA, 0, 8, 1, 2, 3], 320, 240⟩
      ⟨9, 12000, false, 0, 0⟩).2.global_timestamp =
      (if 0 < find_sos [0xFF, 0xD8, 0xFF, 0xDA, 0, 8, 1, 2, 3] 9 ∧
          find_sos [0xFF, 0xD8, 0xFF, 0xDA, 0, 8, 1, 2, 3] 9 ≤ max_payload
       then (12000 + 90000 / 15) % 4294967296 else 12000) :=
  ⟨by decide,
   (timestamp_advances_once_per_frame ⟨8554, 15⟩ (fun _ => SendtoResult.sent)
     ⟨[0xFF, 0xD8, 0xFF, 0xDA, 0, 8, 1, 2, 3], 320, 240⟩ ⟨9, 12000, false, 0, 0⟩
     (by decide)).2.1⟩

/-- Counterexample to C4 as stated: a frame without SOS marker goes through the streaming
loop (it is fetched, found invalid and returned) and the timestamp counter does not
advance by the quantum `90000 / 15 = 6000`. -/
theorem rejected_frame_keeps_timestamp :
    (stream_frame ⟨8554, 15⟩ (fun _ => SendtoResult.sent) ⟨[0xFF, 0xD8, 0, 0, 0, 0], 320, 240⟩
      ⟨0, 12000, false, 0, 0⟩).2.global_timestamp ≠ (12000 + 90000 / 15) % 4294967296 := by
  decide

theorem handle_request_play (cfg : Config) (conn : Conn) (req : List Char) (ok : Bool)
    (s : Session) (hd : dispatch req = Method.play) :
    handle_request cfg conn req ok s =
      ⟨"RTSP/1.0 200 OK\r\nCSeq: ".toList ++ request_cseq req
        ++ "\r\nSession: CAFEBABE\r\nRTP-Info: url=rtsp://".toList ++ conn.client_ip
        ++ ":".toList ++ Nat.toDigits 10 cfg.port
        ++ "/track1;seq=0;rtptime=0\r\nServer: ESP32-RTSP/1.0\r\n\r\n".toList,
       { s with global_seq := 0, global_timestamp := 0, streaming := ok }, !ok⟩ := by
  unfold handle_request
  simp only [hd, reply_play, fmt_08X_ssrc, fmt_d_natCast]
  simp

theorem client_session_packets (cfg : Config) (conn : Conn) (net : Nat → SendtoResult)
    (inputs : List Recv) (cycles : List CycleInput) (seq0 ts0 : Nat)
    (h : (client_session cfg conn net inputs cycles seq0 ts0).packets ≠ []) :
    ∃ text ok, Recv.request text ok ∈ inputs ∧ dispatch text = Method.setup ∧
      ∃ p : Int, parse_client_port text = some p ∧ 0 < p := by
  unfold client_session at h
  simp only [] at h
  split at h
  · rename_i hs
    rcases handshake_loop_port cfg conn inputs _ hs.2 with h1 | h1
    · exact absurd h1 (by simp)
    · exact h1
  · exact absurd rfl h

theorem handshake_loop_streaming (cfg : Config) (conn : Conn) (inputs : List Recv) (s : Session)
    (hs : s.streaming = true) : handshake_loop cfg conn inputs s = ([], s) := by
  cases inputs with
  | nil => rfl
  | cons r rest =>
    cases r with
    | closed => rfl
    | request text ok => rw [handshake_loop_request, if_pos hs]

theorem handshake_loop_play (cfg : Config) (conn : Conn) (req : List Char) (ok : Bool)
    (rest : List Recv) (s : Session) (hs : s.streaming = false)
    (hd : dispatch req = Method.play) :
    handshake_loop cfg conn (Recv.request req ok :: rest) s =
      ([(handle_request cfg conn req ok s).reply],
       { s with global_seq := 0, global_timestamp := 0, streaming := ok }) := by
  have hp := handle_request_play cfg conn req ok s hd
  rw [handshake_loop_request, if_neg (by simp [hs])]
  cases ok with
  | false =>
    rw [if_pos (by rw [hp]; rfl)]
    rw [hp]
  | true =>
    rw [if_neg (by rw [hp]; simp)]
    rw [handshake_loop_streaming cfg conn rest _ (by rw [hp])]
    rw [hp]

/-- C5, as amended. The server accepts PLAY in any state: a request dispatched to the PLAY
branch (it contains `PLAY ` and none of `OPTIONS `, `DESCRIBE `, `SETUP `) gets the 200
reply with Session and RTP-Info, resets both counters to 0 and ends the handshake loop,
whatever follows it and whether or not a SETUP came before; the streaming flag is set
when the `send` of the reply succeeds and stays clear when it fails. What depends on a
SETUP is the media stream: RTP packets are sent in a session only if an earlier request
of the same connection was a SETUP from which a positive client port was parsed; without
one the session is closed after the handshake. -/
theorem play_needs_no_setup_but_streaming_does (cfg : Config) (conn : Conn)
    (net : Nat → SendtoResult) (req : List Char) (ok : Bool) (s : Session) (rest : List Recv)
    (inputs : List Recv) (cycles : List CycleInput) (seq0 ts0 : Nat)
    (h1 : strstr req "OPTIONS ".toList = none) (h2 : strstr req "DESCRIBE ".toList = none)
    (h3 : strstr req "SETUP ".toList = none) (h4 : strstr req "PLAY ".toList ≠ none) :
    handle_request cfg conn req ok s =
      ⟨"RTSP/1.0 200 OK\r\nCSeq: ".toList ++ request_cseq req
        ++ "\r\nSession: CAFEBABE\r\nRTP-Info: url=rtsp://".toList ++ conn.client_ip
        ++ ":".toList ++ Nat.toDigits 10 cfg.port
        ++ "/track1;seq=0;rtptime=0\r\nServer: ESP32-RTSP/1.0\r\n\r\n".toList,
       { s with global_seq := 0, global_timestamp := 0, streaming := ok }, !ok⟩ ∧
    (s.streaming = false →
      handshake_loop cfg conn (Recv.request req ok :: rest) s =
        (["RTSP/1.0 200 OK\r\nCSeq: ".toList ++ request_cseq req
          ++ "\r\nSession: CAFEBABE\r\nRTP-Info: url=rtsp://".toList ++ conn.client_ip
          ++ ":".toList ++ Nat.toDigits 10 cfg.port
          ++ "/track1;seq=0;rtptime=0\r\nServer: ESP32-RTSP/1.0\r\n\r\n".toList],
         { s with global_seq := 0, global_timestamp := 0, streaming := ok })) ∧
    ((client_session cfg conn net inputs cycles seq0 ts0).packets ≠ [] →
      ∃ text ok, Recv.request text ok ∈ inputs ∧ dispatch text = Method.setup ∧
        ∃ p : Int, parse_client_port text = some p ∧ 0 < p) ∧
    ((∀ text ok, Recv.request text ok ∈ inputs → dispatch text ≠ Method.setup) →
      (client_session cfg conn net inputs cycles seq0 ts0).packets = [] ∧
      (client_session cfg conn net inputs cycles seq0 ts0).closed = true) := by
  have hd := dispatch_play req h1 h2 h3 h4
  refine ⟨handle_request_play cfg conn req ok s hd, fun hs => ?_,
    client_session_packets cfg conn net inputs cycles seq0 ts0, fun hno => ?_⟩
  · rw [handshake_loop_play cfg conn req ok rest s hs hd, handle_request_play cfg conn req ok s hd]
  · have hp : ¬ 0 < (handshake_loop cfg conn inputs
        { streaming := false, client_rtp_port := 0, rtp_client_port := 0,
          global_seq := seq0, global_timestamp := ts0 }).2.rtp_client_port := by
      intro h
      rcases handshake_loop_port cfg conn inputs _ h with h1 | ⟨t, o, hm, ha⟩
      · exact absurd h1 (by simp)
      · exact hno t o hm ha.1
    unfold client_session
    simp only []
    rw [if_neg (by tauto)]
    exact ⟨rfl, rfl⟩

/-- Witness of C5: a PLAY request on a connection that saw no SETUP; when the `send` of
its reply fails the handshake ends with the streaming flag clear, the request that
follows is not read. -/
theorem play_needs_no_setup_but_streaming_does_witness :
    strstr "PLAY rtsp://192.168.4.1:8554/ RTSP/1.0\r\nCSeq: 2\r\n\r\n".toList "PLAY ".toList
      ≠ none ∧
    handshake_loop ⟨8554, 15⟩ ⟨"192.168.4.2".toList, 50000, none⟩
      [Recv.request "PLAY rtsp://192.168.4.1:8554/ RTSP/1.0\r\nCSeq: 2\r\n\r\n".toList false,
       Recv.request "OPTIONS * RTSP/1.0\r\nCSeq: 3\r\n\r\n".toList true]
      ⟨false, 0, 0, 41, 90000⟩ =
    (["RTSP/1.0 200 OK\r\nCSeq: ".toList
        ++ request_cseq "PLAY rtsp://192.168.4.1:8554/ RTSP/1.0\r\nCSeq: 2\r\n\r\n".toList
        ++ "\r\nSession: CAFEBABE\r\nRTP-Info: url=rtsp://".toList ++ "192.168.4.2".toList
        ++ ":".toList ++ Nat.toDigits 10 8554
        ++ "/track1;seq=0;rtptime=0\r\nServer: ESP32-RTSP/1.0\r\n\r\n".toList],
     ⟨false, 0, 0, 0, 0⟩) ∧
    (client_session ⟨8554, 15⟩ ⟨"192.168.4.2".toList, 50000, none⟩ (fun _ => SendtoResult.sent)
      [Recv.request "PLAY rtsp://192.168.4.1:8554/ RTSP/1.0\r\nCSeq: 2\r\n\r\n".toList true]
      [CycleInput.frame ⟨[0xFF, 0xDA, 0, 12, 1], 320, 240⟩] 0 0).packets = [] :=
  ⟨by decide,
   (play_needs_no_setup_but_streaming_does ⟨8554, 15⟩ ⟨"192.168.4.2".toList, 50000, none⟩
      (fun _ => SendtoResult.sent)
      "PLAY rtsp://192.168.4.1:8554/ RTSP/1.0\r\nCSeq: 2\r\n\r\n".toList false
      ⟨false, 0, 0, 41, 90000⟩ [Recv.request "OPTIONS * RTSP/1.0\r\nCSeq: 3\r\n\r\n".toList true]
      [Recv.request "PLAY rtsp://192.168.4.1:8554/ RTSP/1.0\r\nCSeq: 2\r\n\r\n".toList true]
      [CycleInput.frame ⟨[0xFF, 0xDA, 0, 12, 1], 320, 240⟩] 0 0 (by decide) (by decide)
      (by decide) (by decide)).2.1 rfl,
   ((play_needs_no_setup_but_streaming_does ⟨8554, 15⟩ ⟨"192.168.4.2".toList, 50000, none⟩
      (fun _ => SendtoResult.sent)
      "PLAY rtsp://192.168.4.1:8554/ RTSP/1.0\r\nCSeq: 2\r\n\r\n".toList false
      ⟨false, 0, 0, 41, 90000⟩ [Recv.request "OPTIONS * RTSP/1.0\r\nCSeq: 3\r\n\r\n".toList true]
      [Recv.request "PLAY rtsp://192.168.4.1:8554/ RTSP/1.0\r\nCSeq: 2\r\n\r\n".toList true]
      [CycleInput.frame ⟨[0xFF, 0xDA, 0, 12, 1], 320, 240⟩] 0 0 (by decide) (by decide)
      (by decide) (by decide)).2.2.2
      (by intro text ok hm; rw [List.mem_singleton] at hm; cases hm; decide)).1⟩

/-- Counterexample to C5 as stated: PLAY is the first request of a connection, no SETUP
has been sent; the server answers 200 with Session and RTP-Info and leaves the handshake
with the streaming flag set. -/
theorem play_without_setup_is_accepted :
    handshake_loop ⟨8554, 15⟩ ⟨"192.168.4.2".toList, 50000, none⟩
      [Recv.request "PLAY rtsp://192.168.4.1:8554/ RTSP/1.0\r\nCSeq: 2\r\n\r\n".toList true]
      ⟨false, 0, 0, 41, 90000⟩ =
    ([("RTSP/1.0 200 OK\r\nCSeq: 2\r\nSession: CAFEBABE\r\n"
        ++ "RTP-Info: url=rtsp://192.168.4.2:8554/track1;seq=0;rtptime=0\r\n"
        ++ "Server: ESP32-RTSP/1.0\r\n\r\n").toList],
     ⟨true, 0, 0, 0, 0⟩) := by
  decide

/-- C6, as amended. For every request whose text contains none of `OPTIONS `, `DESCRIBE `,
`SETUP `, `PLAY `, `TEARDOWN ` (each keyword followed by a space, anywhere in the
request), the server replies 501 Not Implemented with the CSeq of the request, leaves the
session state unchanged (streaming flag, client port, both counters), and the handshake
loop goes on with the next request. -/
theorem unknown_method_gets_501 (cfg : Config) (conn : Conn) (req : List Char) (ok : Bool)
    (rest : List Recv) (s : Session) (hs : s.streaming = false)
    (h1 : strstr req "OPTIONS ".toList = none) (h2 : strstr req "DESCRIBE ".toList = none)
    (h3 : strstr req "SETUP ".toList = none) (h4 : strstr req "PLAY ".toList = none)
    (h5 : strstr req "TEARDOWN ".toList = none) :
    handle_request cfg conn req ok s =
      ⟨"RTSP/1.0 501 Not Implemented\r\nCSeq: ".toList ++ request_cseq req
        ++ "\r\nServer: ESP32-RTSP/1.0\r\n\r\n".toList, s, false⟩ ∧
    handshake_loop cfg conn (Recv.request req ok :: rest) s =
      (("RTSP/1.0 501 Not Implemented\r\nCSeq: ".toList ++ request_cseq req
        ++ "\r\nServer: ESP32-RTSP/1.0\r\n\r\n".toList) :: (handshake_loop cfg conn rest s).1,
       (handshake_loop cfg conn rest s).2) := by
  have hr : handle_request cfg conn req ok s =
      ⟨"RTSP/1.0 501 Not Implemented\r\nCSeq: ".toList ++ request_cseq req
        ++ "\r\nServer: ESP32-RTSP/1.0\r\n\r\n".toList, s, false⟩ := by
    unfold handle_request
    simp only [dispatch_unknown req h1 h2 h3 h4 h5, reply_not_implemented]
  refine ⟨hr, ?_⟩
  rw [handshake_loop_request, hr, if_neg (by simp [hs])]
  simp

/-- Witness of C6: a GET_PARAMETER request followed by nothing. -/
theorem unknown_method_gets_501_witness :
    (handle_request ⟨8554, 15⟩ ⟨"192.168.4.2".toList, 50000, none⟩
      "GET_PARAMETER rtsp://192.168.4.1:8554/ RTSP/1.0\r\nCSeq: 7\r\n\r\n".toList true
      ⟨false, 5000, 5000, 3, 4⟩).reply =
      "RTSP/1.0 501 Not Implemented\r\nCSeq: 7\r\nServer: ESP32-RTSP/1.0\r\n\r\n".toList := by
  have h := (unknown_method_gets_501 ⟨8554, 15⟩ ⟨"192.168.4.2".toList, 50000, none⟩
    "GET_PARAMETER rtsp://192.168.4.1:8554/ RTSP/1.0\r\nCSeq: 7\r\n\r\n".toList true []
    ⟨false, 5000, 5000, 3, 4⟩ rfl (by decide) (by decide) (by decide) (by decide)
    (by decide)).1
  rw [h]
  decide

/-- Counterexample to C6 as stated: the method of the request is PAUSE, none of the five,
but its URL ends in `PLAY`; the server answers 200 as to a PLAY, resets the counters and
sets the streaming flag. -/
theorem pause_request_is_taken_for_play :
    request_method "PAUSE rtsp://192.168.4.1:8554/PLAY RTSP/1.0\r\nCSeq: 5\r\n\r\n".toList
      = "PAUSE".toList ∧
    "PAUSE".toList ∉ ["OPTIONS".toList, "DESCRIBE".toList, "SETUP".toList, "PLAY".toList,
      "TEARDOWN".toList] ∧
    handle_request ⟨8554, 15⟩ ⟨"192.168.4.2".toList, 50000, none⟩
      "PAUSE rtsp://192.168.4.1:8554/PLAY RTSP/1.0\r\nCSeq: 5\r\n\r\n".toList true
      ⟨false, 5000, 5000, 41, 90000⟩ =
    ⟨("RTSP/1.0 200 OK\r\nCSeq: 5\r\nSession: CAFEBABE\r\n"
        ++ "RTP-Info: url=rtsp://192.168.4.2:8554/track1;seq=0;rtptime=0\r\n"
        ++ "Server: ESP32-RTSP/1.0\r\n\r\n").toList,
     ⟨true, 5000, 5000, 0, 0⟩, false⟩ := by
  decide

theorem handle_request_cseq_line (cfg : Config) (conn : Conn) (req : List Char) (ok : Bool)
    (s : Session) :
    ∃ status rest,
      status ∈ ["RTSP/1.0 200 OK\r\n".toList, "RTSP/1.0 400 Bad Request\r\n".toList,
        "RTSP/1.0 501 Not Implemented\r\n".toList] ∧
      (handle_request cfg conn req ok s).reply =
        status ++ "CSeq: ".toList ++ request_cseq req ++ "\r\n".toList ++ rest := by
  unfold handle_request
  cases dispatch req <;> simp only []
  · exact ⟨"RTSP/1.0 200 OK\r\n".toList, _, by simp, by simp [reply_options]; rfl⟩
  · exact ⟨"RTSP/1.0 200 OK\r\n".toList, _, by simp, by simp [reply_describe]; rfl⟩
  · split
    · exact ⟨"RTSP/1.0 200 OK\r\n".toList, _, by simp, by simp [reply_setup_ok]; rfl⟩
    · exact ⟨"RTSP/1.0 400 Bad Request\r\n".toList, _, by simp, by simp [reply_setup_bad]; rfl⟩
  · exact ⟨"RTSP/1.0 200 OK\r\n".toList, _, by simp, by simp [reply_play]; rfl⟩
  · exact ⟨"RTSP/1.0 200 OK\r\n".toList, _, by simp, by simp [reply_teardown]; rfl⟩
  · exact ⟨"RTSP/1.0 501 Not Implemented\r\n".toList, _, by simp,
      by simp [reply_not_implemented]; rfl⟩

/-- C7, as amended. Every RTSP reply consists of a status line (200, 400 or 501), then a
line `CSeq: <v>`, then the rest; `<v>` is `1` when the request contains no `CSeq:`, and
otherwise the first 31 characters of the CSeq value of the request (the text after the
first `CSeq:`, following spaces trimmed, up to the end of the line), whatever that text
is: no value is rejected as unparsable. The request
`OPTIONS * RTSP/1.0\r\nCSeq: 1\r\n\r\n` yields a 200 reply whose second line is `CSeq: 1`. -/
theorem replies_echo_cseq (cfg : Config) (conn : Conn) (req : List Char) (ok : Bool)
    (s : Session) :
    (∃ status rest,
      status ∈ ["RTSP/1.0 200 OK\r\n".toList, "RTSP/1.0 400 Bad Request\r\n".toList,
        "RTSP/1.0 501 Not Implemented\r\n".toList] ∧
      (handle_request cfg conn req ok s).reply =
        status ++ "CSeq: ".toList ++
          (match cseq_value req with
           | none => "1".toList
           | some v => v.take 31) ++ "\r\n".toList ++ rest) ∧
    (handle_request cfg conn "OPTIONS * RTSP/1.0\r\nCSeq: 1\r\n\r\n".toList ok s).reply =
      ("RTSP/1.0 200 OK\r\nCSeq: 1\r\n"
        ++ "Public: OPTIONS, DESCRIBE, SETUP, PLAY, TEARDOWN\r\n"
        ++ "Server: ESP32-RTSP/1.0\r\n\r\n").toList := by
  constructor
  · rw [← request_cseq_eq]
    exact handle_request_cseq_line cfg conn req ok s
  · rfl

/-- Counterexample to C7 as stated: the CSeq value of the request has 32 characters; the
reply carries its first 31 characters only, and no line `CSeq: <v>` with the value of the
request. -/
theorem long_cseq_is_truncated :
    cseq_value
      "OPTIONS * RTSP/1.0\r\nCSeq: 12345678901234567890123456789012\r\n\r\n".toList
      = some "12345678901234567890123456789012".toList ∧
    strstr (handle_request ⟨8554, 15⟩ ⟨"192.168.4.2".toList, 50000, none⟩
      "OPTIONS * RTSP/1.0\r\nCSeq: 12345678901234567890123456789012\r\n\r\n".toList true
      ⟨false, 0, 0, 0, 0⟩).reply
      "CSeq: 12345678901234567890123456789012\r\n".toList = none ∧
    (handle_request ⟨8554, 15⟩ ⟨"192.168.4.2".toList, 50000, none⟩
      "OPTIONS * RTSP/1.0\r\nCSeq: 12345678901234567890123456789012\r\n\r\n".toList true
      ⟨false, 0, 0, 0, 0⟩).reply =
      ("RTSP/1.0 200 OK\r\nCSeq: 1234567890123456789012345678901\r\n"
        ++ "Public: OPTIONS, DESCRIBE, SETUP, PLAY, TEARDOWN\r\n"
        ++ "Server: ESP32-RTSP/1.0\r\n\r\n").toList := by
  decide

theorem handle_request_setup_bad (cfg : Config) (conn : Conn) (req : List Char) (ok : Bool)
    (s : Session) (hd : dispatch req = Method.setup)
    (hp : ∀ v, parse_client_port req = some v → v ≤ 0) :
    (handle_request cfg conn req ok s).reply =
      "RTSP/1.0 400 Bad Request\r\nCSeq: ".toList ++ request_cseq req
        ++ "\r\nServer: ESP32-RTSP/1.0\r\n\r\n".toList ∧
    (handle_request cfg conn req ok s).stop = true ∧
    (handle_request cfg conn req ok s).session.streaming = s.streaming ∧
    (handle_request cfg conn req ok s).session.rtp_client_port = s.rtp_client_port := by
  unfold handle_request
  simp only [hd]
  cases hq : parse_client_port req with
  | none => simp [reply_setup_bad]
  | some v =>
    have := hp v hq
    simp only [Option.isSome_some, true_and]
    rw [if_neg (by omega)]
    simp [reply_setup_bad]

/-- C8, as amended. For every request dispatched to the SETUP branch (it contains
`SETUP ` and neither `OPTIONS ` nor `DESCRIBE `) in which no positive client port is
found (no `Transport:` in the request, no `client_port=` after the first `Transport:`,
no number at the start of the text after that `client_port=`, or a number `<= 0` in the
range of `int`), the reply is 400 Bad Request with the CSeq echoed and the handshake loop
exits without entering streaming: no later request of the connection is answered, and no
RTP packet is sent. -/
theorem setup_without_client_port_ends_session (cfg : Config) (conn : Conn) (req : List Char)
    (ok : Bool) (rest : List Recv) (s : Session) (hs : s.streaming = false)
    (h1 : strstr req "OPTIONS ".toList = none) (h2 : strstr req "DESCRIBE ".toList = none)
    (h3 : strstr req "SETUP ".toList ≠ none)
    (hbad : strstr req "Transport:".toList = none ∨
      (∃ t, strstr req "Transport:".toList = some t ∧
        strstr t "client_port=".toList = none) ∨
      (∃ t cp, strstr req "Transport:".toList = some t ∧
        strstr t "client_port=".toList = some cp ∧ sscanf_d (cp.drop 12) = none) ∨
      (∃ t cp v, strstr req "Transport:".toList = some t ∧
        strstr t "client_port=".toList = some cp ∧ sscanf_d (cp.drop 12) = some v ∧
        -2147483648 ≤ v ∧ v ≤ 0)) :
    (handshake_loop cfg conn (Recv.request req ok :: rest) s).1 =
      ["RTSP/1.0 400 Bad Request\r\nCSeq: ".toList ++ request_cseq req
        ++ "\r\nServer: ESP32-RTSP/1.0\r\n\r\n".toList] ∧
    (handshake_loop cfg conn (Recv.request req ok :: rest) s).2.streaming = false ∧
    (handshake_loop cfg conn (Recv.request req ok :: rest) s).2.rtp_client_port
      = s.rtp_client_port := by
  have hp : ∀ v, parse_client_port req = some v → v ≤ 0 := by
    intro v hv
    unfold parse_client_port at hv
    rcases hbad with h | ⟨t, a1, a2⟩ | ⟨t, cp, a1, a2, a3⟩ | ⟨t, cp, w, a1, a2, a3, _, a5⟩
    · rw [h] at hv; exact absurd hv (by simp)
    · rw [a1] at hv; simp only [a2] at hv; exact absurd hv (by simp)
    · rw [a1] at hv; simp only [a2] at hv
      rw [show "client_port=".toList.length = 12 from rfl, a3] at hv
      exact absurd hv (by simp)
    · rw [a1] at hv; simp only [a2] at hv
      rw [show "client_port=".toList.length = 12 from rfl, a3] at hv
      cases hv; exact a5
  obtain ⟨r1, r2, r3, r4⟩ :=
    handle_request_setup_bad cfg conn req ok s (dispatch_setup req h1 h2 h3) hp
  rw [handshake_loop_request, if_neg (by simp [hs]), if_pos r2]
  exact ⟨by rw [r1], by rw [r3, hs], r4⟩

/-- Witness of C8: a SETUP request for interleaved TCP transport, followed by a PLAY that
gets no answer. -/
theorem setup_without_client_port_ends_session_witness :
    (handshake_loop ⟨8554, 15⟩ ⟨"192.168.4.2".toList, 50000, none⟩
      [Recv.request ("SETUP rtsp://192.168.4.1:8554/track1 RTSP/1.0\r\nCSeq: 3\r\n"
          ++ "Transport: RTP/AVP/TCP;unicast;interleaved=0-1\r\n\r\n").toList true,
       Recv.request "PLAY rtsp://192.168.4.1:8554/ RTSP/1.0\r\nCSeq: 4\r\n\r\n".toList true]
      ⟨false, 0, 0, 0, 0⟩).1 =
    ["RTSP/1.0 400 Bad Request\r\nCSeq: ".toList ++ request_cseq
        ("SETUP rtsp://192.168.4.1:8554/track1 RTSP/1.0\r\nCSeq: 3\r\n"
          ++ "Transport: RTP/AVP/TCP;unicast;interleaved=0-1\r\n\r\n").toList
      ++ "\r\nServer: ESP32-RTSP/1.0\r\n\r\n".toList] :=
  (setup_without_client_port_ends_session ⟨8554, 15⟩ ⟨"192.168.4.2".toList, 50000, none⟩
    ("SETUP rtsp://192.168.4.1:8554/track1 RTSP/1.0\r\nCSeq: 3\r\n"
      ++ "Transport: RTP/AVP/TCP;unicast;interleaved=0-1\r\n\r\n").toList true
    [Recv.request "PLAY rtsp://192.168.4.1:8554/ RTSP/1.0\r\nCSeq: 4\r\n\r\n".toList true]
    ⟨false, 0, 0, 0, 0⟩ rfl (by decide) (by decide) (by decide)
    (Or.inr (Or.inl ⟨"Transport: RTP/AVP/TCP;unicast;interleaved=0-1\r\n\r\n".toList,
      by decide, by decide⟩))).1

/-- Counterexample to C8 as stated: a SETUP request whose Transport header has no
`client_port` parameter; the search for `client_port=` runs on to the end of the request
and finds the parameter in a later header line, so the reply is 200 OK. -/
theorem client_port_found_outside_transport_header :
    request_method ("SETUP rtsp://192.168.4.1:8554/track1 RTSP/1.0\r\nCSeq: 3\r\n"
        ++ "Transport: RTP/AVP/TCP;unicast;interleaved=0-1\r\n"
        ++ "X-Fallback: client_port=5000\r\n\r\n").toList = "SETUP".toList ∧
    transport_header ("SETUP rtsp://192.168.4.1:8554/track1 RTSP/1.0\r\nCSeq: 3\r\n"
        ++ "Transport: RTP/AVP/TCP;unicast;interleaved=0-1\r\n"
        ++ "X-Fallback: client_port=5000\r\n\r\n").toList
      = some "Transport: RTP/AVP/TCP;unicast;interleaved=0-1".toList ∧
    strstr "Transport: RTP/AVP/TCP;unicast;interleaved=0-1".toList "client_port=".toList
      = none ∧
    (handle_request ⟨8554, 15⟩ ⟨"192.168.4.2".toList, 50000, none⟩
      ("SETUP rtsp://192.168.4.1:8554/track1 RTSP/1.0\r\nCSeq: 3\r\n"
        ++ "Transport: RTP/AVP/TCP;unicast;interleaved=0-1\r\n"
        ++ "X-Fallback: client_port=5000\r\n\r\n").toList true ⟨false, 0, 0, 0, 0⟩).reply =
      ("RTSP/1.0 200 OK\r\nCSeq: 3\r\n"
        ++ "Transport: RTP/AVP;unicast;client_port=5000;server_port=50000\r\n"
        ++ "Session: CAFEBABE\r\nServer: ESP32-RTSP/1.0\r\n\r\n").toList := by
  decide

theorem handle_request_setup_ok (cfg : Config) (conn : Conn) (req : List Char) (ok : Bool)
    (s : Session) (hd : dispatch req = Method.setup) (c : Nat)
    (hp : parse_client_port req = some (c : Int)) (hc : 0 < c) :
    handle_request cfg conn req ok s =
      ⟨"RTSP/1.0 200 OK\r\nCSeq: ".toList ++ request_cseq req
        ++ "\r\nTransport: RTP/AVP;unicast;client_port=".toList ++ Nat.toDigits 10 c
        ++ ";server_port=".toList ++ Nat.toDigits 10 conn.rtp_server_port
        ++ "\r\nSession: CAFEBABE\r\nServer: ESP32-RTSP/1.0\r\n\r\n".toList,
       { s with client_rtp_port := c, rtp_client_port := c % 65536 }, !ok⟩ := by
  unfold handle_request
  simp only [hd, hp, Option.isSome_some, true_and]
  rw [if_pos (by omega)]
  simp only [reply_setup_ok, fmt_08X_ssrc, fmt_d_natCast]
  have e : ((c : Int) % 65536).toNat = c % 65536 := by omega
  rw [e]
  simp

/-- C9, as amended. For every request dispatched to the SETUP branch (it contains
`SETUP ` and neither `OPTIONS ` nor `DESCRIBE `) in which the first `client_port=` after
the first `Transport:` is followed by a string of decimal digits of value `c`,
`0 < c < 2^31` (and then by anything but a digit, such as `-<c2>`), the reply is 200 OK,
its Transport header is exactly `RTP/AVP;unicast;client_port=<c>;server_port=<s>` with
`<c>` and the RTP port `<s>` of the server in decimal, its Session is `CAFEBABE`, and the
client port is stored for the media stream. -/
theorem setup_with_client_port_is_accepted (cfg : Config) (conn : Conn) (req : List Char)
    (ok : Bool) (s : Session) (t cp digits tail : List Char)
    (h1 : strstr req "OPTIONS ".toList = none) (h2 : strstr req "DESCRIBE ".toList = none)
    (h3 : strstr req "SETUP ".toList ≠ none)
    (ht : strstr req "Transport:".toList = some t)
    (hcp : strstr t "client_port=".toList = some cp)
    (hv : cp.drop 12 = digits ++ tail)
    (hne : digits ≠ []) (hdig : ∀ c ∈ digits, c.isDigit = true)
    (htail : ∀ c ∈ tail.head?, c.isDigit = false)
    (hpos : 0 < decimal_value digits) (_hmax : decimal_value digits < 2147483648) :
    handle_request cfg conn req ok s =
      ⟨"RTSP/1.0 200 OK\r\nCSeq: ".toList ++ request_cseq req
        ++ "\r\nTransport: RTP/AVP;unicast;client_port=".toList
        ++ Nat.toDigits 10 (decimal_value digits)
        ++ ";server_port=".toList ++ Nat.toDigits 10 conn.rtp_server_port
        ++ "\r\nSession: CAFEBABE\r\nServer: ESP32-RTSP/1.0\r\n\r\n".toList,
       { s with client_rtp_port := decimal_value digits,
                rtp_client_port := decimal_value digits % 65536 }, !ok⟩ := by
  have hp : parse_client_port req = some (decimal_value digits : Int) := by
    unfold parse_client_port
    rw [ht]
    simp only [hcp]
    rw [show "client_port=".toList.length = 12 from rfl, hv]
    exact sscanf_d_digits digits tail hne hdig htail
  exact handle_request_setup_ok cfg conn req ok s (dispatch_setup req h1 h2 h3)
    (decimal_value digits) hp hpos

/-- Witness of C9: `client_port=5000-5001` yields `client_port=5000`. -/
theorem setup_with_client_port_is_accepted_witness :
    (handle_request ⟨8554, 15⟩ ⟨"192.168.4.2".toList, 50000, none⟩
      ("SETUP rtsp://192.168.4.1:8554/track1 RTSP/1.0\r\nCSeq: 3\r\n"
        ++ "Transport: RTP/AVP;unicast;client_port=5000-5001\r\n\r\n").toList true
      ⟨false, 0, 0, 0, 0⟩).reply =
      ("RTSP/1.0 200 OK\r\nCSeq: 3\r\n"
        ++ "Transport: RTP/AVP;unicast;client_port=5000;server_port=50000\r\n"
        ++ "Session: CAFEBABE\r\nServer: ESP32-RTSP/1.0\r\n\r\n").toList := by
  have h := setup_with_client_port_is_accepted ⟨8554, 15⟩
    ⟨"192.168.4.2".toList, 50000, none⟩
    ("SETUP rtsp://192.168.4.1:8554/track1 RTSP/1.0\r\nCSeq: 3\r\n"
      ++ "Transport: RTP/AVP;unicast;client_port=5000-5001\r\n\r\n").toList true
    ⟨false, 0, 0, 0, 0⟩
    "Transport: RTP/AVP;unicast;client_port=5000-5001\r\n\r\n".toList
    "client_port=5000-5001\r\n\r\n".toList "5000".toList "-5001\r\n\r\n".toList
    (by decide) (by decide) (by decide) (by decide) (by decide) (by decide) (by decide)
    (by decide) (by decide) (by decide) (by decide)
  rw [h]
  decide

/-- Counterexample to C9 as stated: a SETUP request whose Transport header holds
`client_port=5000-5001` and whose User-Agent header contains `OPTIONS `; the test for
`OPTIONS ` comes first, the reply is the one to OPTIONS and has no Transport header. -/
theorem setup_request_is_taken_for_options :
    request_method ("SETUP rtsp://192.168.4.1:8554/track1 RTSP/1.0\r\nCSeq: 3\r\n"
        ++ "User-Agent: RTSP OPTIONS tester\r\n"
        ++ "Transport: RTP/AVP;unicast;client_port=5000-5001\r\n\r\n").toList
      = "SETUP".toList ∧
    transport_header ("SETUP rtsp://192.168.4.1:8554/track1 RTSP/1.0\r\nCSeq: 3\r\n"
        ++ "User-Agent: RTSP OPTIONS tester\r\n"
        ++ "Transport: RTP/AVP;unicast;client_port=5000-5001\r\n\r\n").toList
      = some "Transport: RTP/AVP;unicast;client_port=5000-5001".toList ∧
    (handle_request ⟨8554, 15⟩ ⟨"192.168.4.2".toList, 50000, none⟩
      ("SETUP rtsp://192.168.4.1:8554/track1 RTSP/1.0\r\nCSeq: 3\r\n"
        ++ "User-Agent: RTSP OPTIONS tester\r\n"
        ++ "Transport: RTP/AVP;unicast;client_port=5000-5001\r\n\r\n").toList true
      ⟨false, 0, 0, 0, 0⟩).reply =
      ("RTSP/1.0 200 OK\r\nCSeq: 3\r\n"
        ++ "Public: OPTIONS, DESCRIBE, SETUP, PLAY, TEARDOWN\r\n"
        ++ "Server: ESP32-RTSP/1.0\r\n\r\n").toList := by
  decide

theorem send_loop_enobufs (net : Nat → SendtoResult) :
    ∀ (k fuel retry pos : Nat), retry + k ≤ MAX_SEND_RETRIES → k < fuel →
      (∀ j, j < k → net (pos + j) = SendtoResult.enobufs) →
      send_rtp_packet_reliable_loop net fuel retry pos =
        ⟨(send_rtp_packet_reliable_loop net (fuel - k) (retry + k) (pos + k)).result,
         (send_rtp_packet_reliable_loop net (fuel - k) (retry + k) (pos + k)).attempts + k,
         (List.range k).map (fun j => RETRY_DELAY_MS * 2 ^ (retry + j)) ++
           (send_rtp_packet_reliable_loop net (fuel - k) (retry + k) (pos + k)).delays⟩ := by
  intro k
  induction k with
  | zero => intro fuel retry pos _ _ _; simp
  | succ k ih =>
    intro fuel retry pos h1 h2 h3
    obtain ⟨f, hf⟩ : ∃ f, fuel = f + 1 := ⟨fuel - 1, by omega⟩
    subst hf
    have h0 : net pos = SendtoResult.enobufs := by simpa using h3 0 (by omega)
    rw [send_rtp_packet_reliable_loop, if_pos (by omega), h0]
    simp only []
    rw [ih f (retry + 1) (pos + 1) (by omega) (by omega)
      (fun j hj => by rw [show pos + 1 + j = pos + (j + 1) by omega]; exact h3 (j + 1) (by omega))]
    rw [show f + 1 - (k + 1) = f - k by omega, show retry + 1 + k = retry + (k + 1) by omega,
      show pos + 1 + k = pos + (k + 1) by omega]
    simp only [SendRun.mk.injEq, true_and]
    refine ⟨by omega, ?_⟩
    rw [List.range_succ_eq_map, List.map_cons, List.map_map, List.cons_append]
    simp only [Nat.add_zero, List.cons.injEq, true_and, List.append_cancel_right_eq]
    apply List.map_congr_left
    intro j _
    simp only [Function.comp]
    rw [show retry + 1 + j = retry + (j + 1) by omega]

theorem send_rtp_packet_reliable_spec (net : Nat → SendtoResult) (pos k : Nat)
    (hk : k ≤ MAX_SEND_RETRIES) (hfail : ∀ j, j < k → net (pos + j) = SendtoResult.enobufs) :
    (k = MAX_SEND_RETRIES →
      send_rtp_packet_reliable net pos = ⟨false, MAX_SEND_RETRIES, backoff_delays k⟩) ∧
    (k < MAX_SEND_RETRIES → net (pos + k) = SendtoResult.sent →
      send_rtp_packet_reliable net pos = ⟨true, k + 1, backoff_delays k⟩) ∧
    (k < MAX_SEND_RETRIES → net (pos + k) = SendtoResult.error →
      send_rtp_packet_reliable net pos = ⟨false, k + 1, backoff_delays k⟩) := by
  have h := send_loop_enobufs net k (MAX_SEND_RETRIES + 1) 0 pos (by omega)
    (by unfold MAX_SEND_RETRIES at hk ⊢; omega) hfail
  unfold send_rtp_packet_reliable
  rw [h]
  have hm : MAX_SEND_RETRIES = 5 := rfl
  simp only [Nat.zero_add, backoff_delays]
  refine ⟨fun h5 => ?_, fun hlt hs => ?_, fun hlt he => ?_⟩
  · subst h5
    rw [show MAX_SEND_RETRIES + 1 - MAX_SEND_RETRIES = 1 by rfl, send_rtp_packet_reliable_loop,
      if_neg (by omega)]
    simp
  · obtain ⟨f, hf⟩ : ∃ f, MAX_SEND_RETRIES + 1 - k = f + 1 := ⟨MAX_SEND_RETRIES - k, by omega⟩
    rw [hf, send_rtp_packet_reliable_loop, if_pos hlt, hs]
    simp; omega
  · obtain ⟨f, hf⟩ : ∃ f, MAX_SEND_RETRIES + 1 - k = f + 1 := ⟨MAX_SEND_RETRIES - k, by omega⟩
    rw [hf, send_rtp_packet_reliable_loop, if_pos hlt, he]
    simp; omega

theorem send_attempts_le (net : Nat → SendtoResult) :
    ∀ (fuel retry pos : Nat),
      (send_rtp_packet_reliable_loop net fuel retry pos).attempts + retry ≤
        max retry MAX_SEND_RETRIES := by
  intro fuel
  induction fuel with
  | zero => intro retry pos; simp [send_rtp_packet_reliable_loop]
  | succ f ih =>
    intro retry pos
    rw [send_rtp_packet_reliable_loop]
    by_cases h : retry < MAX_SEND_RETRIES
    · rw [if_pos h]
      cases net pos with
      | sent => simp only []; omega
      | error => simp only []; omega
      | enobufs =>
        simp only []
        have := ih (retry + 1) (pos + 1)
        omega
    · rw [if_neg h]; simp

/-! ## Frames without SOS marker -/

theorem find_sos_loop_none (buf : List Nat) (len : Nat)
    (h : ∀ i, i + 1 < buf.length → ¬ (buf.getD i 0 = 0xFF ∧ buf.getD (i + 1) 0 = 0xDA)) :
    ∀ fuel i : Nat, find_sos_loop buf len fuel i = 0 := by
  have hall : ∀ i, ¬ (buf.getD i 0 = 0xFF ∧ buf.getD (i + 1) 0 = 0xDA) := by
    intro i hc
    by_cases hi : i + 1 < buf.length
    · exact h i hi hc
    · have : buf.getD (i + 1) 0 = 0 := by
        rw [List.getD_eq_getElem?_getD, List.getElem?_eq_none (by omega)]
        rfl
      omega
  intro fuel
  induction fuel with
  | zero => intro i; rfl
  | succ k ih =>
    intro i
    rw [find_sos_loop]
    split
    · rw [if_neg (hall i)]; exact ih (i + 1)
    · rfl

theorem stream_frame_no_sos (cfg : Config) (net : Nat → SendtoResult) (fb : camera_fb_t)
    (st : StreamState)
    (h : ∀ i, i + 1 < fb.buf.length →
      ¬ (fb.buf.getD i 0 = 0xFF ∧ fb.buf.getD (i + 1) 0 = 0xDA)) :
    find_sos fb.buf fb.len = 0 ∧ stream_frame cfg net fb st = ([], st) := by
  have h0 : find_sos fb.buf fb.len = 0 := find_sos_loop_none fb.buf fb.len h fb.len 0
  refine ⟨h0, ?_⟩
  unfold stream_frame
  simp only [h0]
  rfl

/-! ## Bounds of the fragment loop -/

theorem find_sos_le_len (buf : List Nat) (len : Nat) (hlen : len < 4294967296) :
    0 ≤ find_sos buf len ∧ find_sos buf len ≤ len := by
  have ht : to_int len ≤ len := by unfold to_int; split <;> omega
  rcases find_sos_loop_range buf len len 0 with h | h
  · unfold find_sos; omega
  · unfold find_sos; omega

theorem length_build_packet (fb : camera_fb_t) (H : Nat) (q : Int) (seq ts off : Nat) (c : Nat)
    (l : Bool) (hb : H + off + c ≤ fb.buf.length) :
    ((build_packet fb H q seq ts off c l).length : Int) = pkt_size H off c := by
  unfold build_packet pkt_size
  simp only [List.length_append, Int.toNat_ofNat, beq_iff_eq, List.length_take,
    List.length_drop]
  rw [show (build_rtp_header seq ts RTP_SSRC (if l = true then 1 else 0)).length = 12 from rfl,
    show (build_jpeg_header (to_int off) 0 q (Int.tdiv (to_int fb.width) 8)
      (Int.tdiv (to_int fb.height) 8)).length = 8 from rfl]
  by_cases h0 : off = 0
  · simp only [h0, if_true, List.length_take, RTP_HEADER_SIZE]
    rw [h0] at hb
    omega
  · simp only [h0, if_false, List.length_nil, RTP_HEADER_SIZE]
    omega

/-- One iteration of the fragment loop that builds a packet: the chunk is at most the
remaining scan bytes, the packet fits the scratch buffer, the bytes copied lie inside the
frame, and the packet of the model has exactly `pkt_size` bytes. -/
theorem fragment_iteration_bounds (fb : camera_fb_t) (H off : Nat)
    (hlen : fb.buf.length < 2147483648) (hH : H ≤ fb.buf.length)
    (hoff : off < scan_len_total fb H) (hc : 0 < (fragment_chunk fb H off).1) :
    (fragment_chunk fb H off).1 ≤ ((scan_len_total fb H - off : Nat) : Int) ∧
    pkt_size H off (fragment_chunk fb H off).1 ≤ MAX_PACKET_SIZE ∧
    (H : Int) + off + (fragment_chunk fb H off).1 ≤ fb.buf.length ∧
    ∀ (q : Int) (seq ts : Nat) (l : Bool),
      ((build_packet fb H q seq ts off (fragment_chunk fb H off).1 l).length : Int) =
        pkt_size H off (fragment_chunk fb H off).1 := by
  have hsl := scan_len_total_eq fb H hH hlen
  rw [hsl] at hoff ⊢
  have hce := fragment_chunk_eq fb H off (by omega) hlen
  have hle : (fragment_chunk fb H off).1 ≤ ((fb.buf.length - H - off : Nat) : Int) ∧
      (fragment_chunk fb H off).1 ≤ (if off = 0 then (1380 : Int) - H else 1380) := by
    rw [hce]
    by_cases hgt : (if off = 0 then (1380 : Int) - H else 1380) >
        ((fb.buf.length - H - off : Nat) : Int)
    · rw [if_pos hgt]; exact ⟨le_refl _, le_of_lt hgt⟩
    · rw [if_neg hgt]; exact ⟨Int.not_lt.1 hgt, le_refl _⟩
  obtain ⟨c, hcn⟩ : ∃ c : Nat, (fragment_chunk fb H off).1 = (c : Int) :=
    ⟨(fragment_chunk fb H off).1.toNat, by omega⟩
  rw [hcn] at hle hc ⊢
  have hps : pkt_size H off c ≤ MAX_PACKET_SIZE := by
    unfold pkt_size MAX_PACKET_SIZE RTP_HEADER_SIZE
    by_cases h0 : off = 0
    · simp only [h0, if_true] at hle ⊢; omega
    · simp only [h0, if_false] at hle ⊢; omega
  refine ⟨by omega, hps, by omega, fun q seq ts l => ?_⟩
  exact length_build_packet fb H q seq ts off c l (by omega)

theorem fragment_loop_lengths (net : Nat → SendtoResult) (fb : camera_fb_t) (H : Nat) (q : Int)
    (hlen : fb.buf.length < 2147483648) (hH : H ≤ fb.buf.length) :
    ∀ (fuel off : Nat) (st : StreamState),
      ∀ e ∈ (fragment_loop net fb H q fuel off st).1, e.pkt.length ≤ MAX_PACKET_SIZE := by
  intro fuel
  induction fuel with
  | zero => intro off st e he; simp [fragment_loop] at he
  | succ k ih =>
    intro off st e he
    by_cases h : off < scan_len_total fb H ∧ 0 < (fragment_chunk fb H off).1
    · rw [fragment_loop_emit net fb H q k off st h.1 h.2] at he
      rcases List.mem_cons.1 he with h2 | h2
      · obtain ⟨_, b2, _, b4⟩ := fragment_iteration_bounds fb H off hlen hH h.1 h.2
        have := b4 q st.global_seq st.global_timestamp (fragment_chunk fb H off).2
        rw [h2]
        simp only []
        omega
      · exact ih _ _ e h2
    · rw [fragment_loop_stop net fb H q (k + 1) off st (by omega)] at he
      simp at he

theorem stream_frame_lengths (cfg : Config) (net : Nat → SendtoResult) (fb : camera_fb_t)
    (st : StreamState) (hlen : fb.len < 4294967296) :
    ∀ e ∈ (stream_frame cfg net fb st).1, e.pkt.length ≤ MAX_PACKET_SIZE := by
  intro e he
  by_cases h : 0 < find_sos fb.buf fb.len ∧ find_sos fb.buf fb.len ≤ max_payload
  · obtain ⟨q, st0, _, _, e3, _, _⟩ := stream_frame_accept cfg net fb st h.1 h.2
    have ee : fb.len = fb.buf.length := rfl
    rw [ee] at hlen h e3
    obtain ⟨_, hrl, hl31⟩ := find_sos_range fb.buf fb.buf.length hlen h.1
    obtain ⟨H, hH⟩ : ∃ H : Nat, find_sos fb.buf fb.buf.length = (H : Int) :=
      ⟨(find_sos fb.buf fb.buf.length).toNat, by omega⟩
    rw [e3, hH] at he
    exact fragment_loop_lengths net fb H q hl31 (by omega) _ _ _ e he
  · rw [(stream_frame_reject cfg net fb st (by omega)).1] at he
    simp at he

/-! ## The RTP header of the packets -/

theorem build_rtp_header_fields (seq ts ssrc : Nat) (marker : Int) (hseq : seq < 65536)
    (hts : ts < 4294967296) (hssrc : ssrc < 4294967296) :
    (build_rtp_header seq ts ssrc marker).length = 12 ∧
    (∀ b ∈ build_rtp_header seq ts ssrc marker, b < 256) ∧
    rtp_version (build_rtp_header seq ts ssrc marker) = 2 ∧
    rtp_padding (build_rtp_header seq ts ssrc marker) = 0 ∧
    rtp_extension (build_rtp_header seq ts ssrc marker) = 0 ∧
    rtp_csrc_count (build_rtp_header seq ts ssrc marker) = 0 ∧
    rtp_payload_type (build_rtp_header seq ts ssrc marker) = 26 ∧
    rtp_marker (build_rtp_header seq ts ssrc marker) = decide (marker ≠ 0) ∧
    rtp_seq (build_rtp_header seq ts ssrc marker) = seq ∧
    rtp_timestamp (build_rtp_header seq ts ssrc marker) = ts ∧
    rtp_ssrc (build_rtp_header seq ts ssrc marker) = ssrc := by
  have hb1 : (RTP_PAYLOAD_TYPE ||| (if marker ≠ 0 then 0x80 else 0x00)) % 256 =
      if marker ≠ 0 then 154 else 26 := by
    by_cases hm : marker ≠ 0
    · rw [if_pos hm, if_pos hm]; rfl
    · rw [if_neg hm, if_neg hm]; rfl
  refine ⟨rfl, ?_, by simp [rtp_version, build_rtp_header],
    by simp [rtp_padding, build_rtp_header], by simp [rtp_extension, build_rtp_header],
    by simp [rtp_csrc_count, build_rtp_header], ?_, ?_, ?_, ?_, ?_⟩
  · intro b hb
    unfold build_rtp_header at hb
    rw [hb1] at hb
    simp only [List.mem_cons, List.mem_singleton, List.not_mem_nil, or_false] at hb
    rcases hb with h | h | h | h | h | h | h | h | h | h | h | h
    · omega
    · by_cases hm : marker ≠ 0
      · rw [if_pos hm] at h; omega
      · rw [if_neg hm] at h; omega
    all_goals omega
  · unfold rtp_payload_type build_rtp_header
    simp only [List.getD_cons_succ, List.getD_cons_zero]
    rw [hb1]
    by_cases hm : marker ≠ 0
    · rw [if_pos hm]
    · rw [if_neg hm]
  · unfold rtp_marker build_rtp_header
    simp only [List.getD_cons_succ, List.getD_cons_zero]
    rw [hb1]
    have h154 : decide ((154 : Nat) &&& 0x80 ≠ 0) = true := by decide
    have h26 : decide ((26 : Nat) &&& 0x80 ≠ 0) = false := by decide
    by_cases hm : marker ≠ 0
    · rw [if_pos hm, h154]; exact (decide_eq_true hm).symm
    · rw [if_neg hm, h26]; exact (decide_eq_false hm).symm
  · unfold rtp_seq build_rtp_header
    simp only [List.getD_cons_succ, List.getD_cons_zero]
    omega
  · unfold rtp_timestamp build_rtp_header
    simp only [List.getD_cons_succ, List.getD_cons_zero]
    omega
  · unfold rtp_ssrc build_rtp_header
    simp only [List.getD_cons_succ, List.getD_cons_zero]
    omega

theorem rtp_version_build_packet (fb : camera_fb_t) (hl q : Int) (seq ts off : Nat) (c : Int)
    (l : Bool) : rtp_version (build_packet fb hl q seq ts off c l) = 2 ∧
      rtp_payload_type (build_packet fb hl q seq ts off c l) = 26 := by
  cases l <;>
  simp [rtp_version, rtp_payload_type, build_packet, build_rtp_header, List.cons_append,
    List.getD_cons_succ, List.getD_cons_zero, RTP_PAYLOAD_TYPE]

theorem fragment_loop_versions (net : Nat → SendtoResult) (fb : camera_fb_t) (hl q : Int) :
    ∀ (fuel off : Nat) (st : StreamState),
      ∀ e ∈ (fragment_loop net fb hl q fuel off st).1,
        rtp_version e.pkt = 2 ∧ rtp_payload_type e.pkt = 26 := by
  intro fuel
  induction fuel with
  | zero => intro off st e he; simp [fragment_loop] at he
  | succ k ih =>
    intro off st e he
    by_cases h : off < scan_len_total fb hl ∧ 0 < (fragment_chunk fb hl off).1
    · rw [fragment_loop_emit net fb hl q k off st h.1 h.2] at he
      rcases List.mem_cons.1 he with h2 | h2
      · rw [h2]; exact rtp_version_build_packet _ _ _ _ _ _ _ _
      · exact ih _ _ e h2
    · rw [fragment_loop_stop net fb hl q (k + 1) off st (by omega)] at he
      simp at he

theorem stream_frame_versions (cfg : Config) (net : Nat → SendtoResult) (fb : camera_fb_t)
    (st : StreamState) :
    ∀ e ∈ (stream_frame cfg net fb st).1,
      rtp_version e.pkt = 2 ∧ rtp_payload_type e.pkt = 26 := by
  intro e he
  by_cases h : 0 < find_sos fb.buf fb.len ∧ find_sos fb.buf fb.len ≤ max_payload
  · obtain ⟨q, st0, _, _, e3, _, _⟩ := stream_frame_accept cfg net fb st h.1 h.2
    rw [e3] at he
    exact fragment_loop_versions net fb _ q _ _ _ e he
  · rw [(stream_frame_reject cfg net fb st (by omega)).1] at he
    simp at he

theorem streaming_loop_versions (cfg : Config) (net : Nat → SendtoResult) :
    ∀ (cycles : List CycleInput) (st : StreamState),
      ∀ e ∈ (streaming_loop cfg net cycles st).1,
        rtp_version e.pkt = 2 ∧ rtp_payload_type e.pkt = 26 := by
  intro cycles
  induction cycles with
  | nil => intro st e he; simp [streaming_loop] at he
  | cons c rest ih =>
    intro st e he
    cases c with
    | disconnected => simp [streaming_loop] at he
    | no_frame => simp only [streaming_loop] at he; exact ih st e he
    | frame fb =>
      simp only [streaming_loop] at he
      rcases List.mem_append.1 he with h | h
      · exact stream_frame_versions cfg net fb st e h
      · exact ih _ e h

theorem client_session_first_packet (cfg : Config) (conn : Conn) (net : Nat → SendtoResult)
    (inputs : List Recv) (cycles : List CycleInput) (seq0 ts0 : Nat) (e : RtpSend)
    (rest : List RtpSend)
    (h : (client_session cfg conn net inputs cycles seq0 ts0).packets = e :: rest) :
    rtp_version e.pkt = 2 ∧ rtp_payload_type e.pkt = 26 ∧ rtp_seq e.pkt = 0 := by
  have hs := client_session_seqs cfg conn net inputs cycles seq0 ts0
  rw [h, List.map_cons, List.length_cons, consecutive_seqs_succ] at hs
  have hseq : rtp_seq e.pkt = 0 := (List.cons.inj hs).1
  have hm : e ∈ (client_session cfg conn net inputs cycles seq0 ts0).packets := by
    rw [h]; exact List.mem_cons_self _ _
  unfold client_session at hm
  simp only [] at hm
  split at hm
  · obtain ⟨v, p⟩ := streaming_loop_versions cfg net cycles _ e hm
    exact ⟨v, p, hseq⟩
  · simp at hm

/-! ## Fragment offsets -/

theorem jpeg_fragment_offset_build_packet (fb : camera_fb_t) (hl q : Int) (seq ts off : Nat)
    (c : Int) (l : Bool) (hoff : off < 2147483648) :
    jpeg_fragment_offset (build_packet fb hl q seq ts off c l) = off % 16777216 := by
  have ho : to_int (off : Int) = off := to_int_of_range (by omega) (by omega)
  simp only [jpeg_fragment_offset, build_packet, build_rtp_header, build_jpeg_header,
    List.cons_append, List.nil_append, List.getD_cons_succ, List.getD_cons_zero, ho, to_u8]
  omega

theorem length_scan_next (fb : camera_fb_t) (H : Nat) (q : Int) (seq ts off c : Nat) (l : Bool)
    (h0 : 0 < off) (hb : H + off + c ≤ fb.buf.length) :
    ((build_packet fb H q seq ts off c l).drop 20).length = c := by
  have hne : off ≠ 0 := by omega
  rw [drop_headers]
  simp only [hne, if_false, List.nil_append, Int.toNat_ofNat, List.length_take,
    List.length_drop]
  omega

theorem length_scan_first (fb : camera_fb_t) (H : Nat) (q : Int) (seq ts c : Nat) (l : Bool)
    (hb : H + c ≤ fb.buf.length) :
    ((build_packet fb H q seq ts 0 c l).drop (20 + H)).length = c := by
  rw [drop_first_packet fb H q seq ts c l (by omega)]
  simp only [Int.toNat_ofNat, List.length_take, List.length_drop]
  omega

/-- The chunk of an iteration inside the scan data of a frame in the range of `int`, as a
natural number with its bounds. -/
theorem fragment_chunk_nat (fb : camera_fb_t) (H off : Nat) (hlen : fb.buf.length < 2147483648)
    (hH : H ≤ fb.buf.length) (hoff : off < scan_len_total fb H)
    (hc : 0 < (fragment_chunk fb H off).1) :
    ∃ c : Nat, (fragment_chunk fb H off).1 = (c : Int) ∧ 0 < c ∧ H + off + c ≤ fb.buf.length ∧
      to_size_t ((off : Int) + (fragment_chunk fb H off).1) = off + c := by
  obtain ⟨_, _, b3, _⟩ := fragment_iteration_bounds fb H off hlen hH hoff hc
  refine ⟨(fragment_chunk fb H off).1.toNat, by omega, by omega, by omega, ?_⟩
  rw [to_size_t_of_range (by omega) (by omega)]
  omega

theorem offsets_next_loop (net : Nat → SendtoResult) (fb : camera_fb_t) (H : Nat) (q : Int)
    (hlen : fb.buf.length < 2147483648) (hH : H ≤ fb.buf.length) :
    ∀ (fuel off : Nat) (st : StreamState), 0 < off →
      ∀ (pre : List RtpSend) (e : RtpSend) (post : List RtpSend),
        (fragment_loop net fb H q fuel off st).1 = pre ++ e :: post →
        jpeg_fragment_offset e.pkt = (off + (scan_bytes_next pre).length) % 16777216 := by
  intro fuel
  induction fuel with
  | zero =>
    intro off st _ pre e post h
    rw [fragment_loop] at h
    exact absurd h (by simp)
  | succ k ih =>
    intro off st h0 pre e post h
    by_cases hs : off < scan_len_total fb H ∧ 0 < (fragment_chunk fb H off).1
    · rw [fragment_loop_emit net fb H q k off st hs.1 hs.2] at h
      obtain ⟨c, hc, hcpos, hcb, hnext⟩ := fragment_chunk_nat fb H off hlen hH hs.1 hs.2
      rw [hnext, hc] at h
      simp only [] at h
      cases pre with
      | nil =>
        rw [List.nil_append] at h
        rw [← (List.cons.inj h).1]
        simp only [scan_bytes_next, List.length_nil, Nat.add_zero]
        exact jpeg_fragment_offset_build_packet _ _ _ _ _ _ _ _ (by omega)
      | cons x pre2 =>
        rw [List.cons_append] at h
        obtain ⟨hx, hrest⟩ := List.cons.inj h
        rw [ih (off + c) _ (by omega) pre2 e post hrest, ← hx]
        simp only [scan_bytes_next, List.length_append]
        rw [length_scan_next fb H q _ _ off c _ h0 hcb]
        congr 1
        omega
    · rw [fragment_loop_stop net fb H q (k + 1) off st (by omega)] at h
      exact absurd h (by simp)

theorem offsets_loop (net : Nat → SendtoResult) (fb : camera_fb_t) (H : Nat) (q : Int)
    (hlen : fb.buf.length < 2147483648) (hH : H ≤ fb.buf.length) (fuel : Nat)
    (st : StreamState) :
    (∀ (pre : List RtpSend) (e : RtpSend) (post : List RtpSend),
      (fragment_loop net fb H q fuel 0 st).1 = pre ++ e :: post →
      jpeg_fragment_offset e.pkt = (scan_bytes H pre).length % 16777216) ∧
    (∀ (e : RtpSend) (rest : List RtpSend),
      (fragment_loop net fb H q fuel 0 st).1 = e :: rest →
      ((e.pkt.drop (20 + H)).length : Int) =
        min ((1380 : Int) - H) ((fb.buf.length - H : Nat) : Int)) := by
  cases fuel with
  | zero =>
    constructor
    · intro pre e post h; rw [fragment_loop] at h; exact absurd h (by simp)
    · intro e rest h; rw [fragment_loop] at h; exact absurd h (by simp)
  | succ k =>
    by_cases hs : 0 < scan_len_total fb H ∧ 0 < (fragment_chunk fb H 0).1
    · obtain ⟨c, hc, hcpos, hcb, hnext⟩ := fragment_chunk_nat fb H 0 hlen hH hs.1 hs.2
      have hcv := fragment_chunk_first fb H hH hlen
      rw [fragment_loop_emit net fb H q k 0 st hs.1 hs.2, hnext, hc]
      simp only []
      constructor
      · intro pre e post h
        cases pre with
        | nil =>
          rw [List.nil_append] at h
          rw [← (List.cons.inj h).1]
          simp only [scan_bytes, List.length_nil, Nat.zero_mod]
          exact jpeg_fragment_offset_build_packet _ _ _ _ _ _ _ _ (by omega)
        | cons x pre2 =>
          rw [List.cons_append] at h
          obtain ⟨hx, hrest⟩ := List.cons.inj h
          rw [offsets_next_loop net fb H q hlen hH k (0 + c) _ (by omega) pre2 e post hrest,
            ← hx]
          simp only [scan_bytes, List.length_append]
          rw [length_scan_first fb H q _ _ c _ (by omega)]
          congr 1
          omega
      · intro e rest h
        rw [← (List.cons.inj h).1]
        simp only []
        rw [length_scan_first fb H q _ _ c _ (by omega)]
        have hcc : (c : Int) = (fragment_chunk fb H 0).1 := hc.symm
        rw [hcc, hcv]
        by_cases hgt : (1380 : Int) - H > ((fb.buf.length - H : Nat) : Int)
        · rw [if_pos hgt]; simp only []; omega
        · rw [if_neg hgt]; simp only []; omega
    · rw [fragment_loop_stop net fb H q (k + 1) 0 st (by omega)]
      constructor
      · intro pre e post h; exact absurd h (by simp)
      · intro e rest h; exact absurd h (by simp)

theorem stream_frame_offsets (cfg : Config) (net : Nat → SendtoResult) (fb : camera_fb_t)
    (st : StreamState) (hlen : fb.len < 4294967296) :
    (∀ (pre : List RtpSend) (e : RtpSend) (post : List RtpSend),
      (stream_frame cfg net fb st).1 = pre ++ e :: post →
      jpeg_fragment_offset e.pkt =
        (scan_bytes (find_sos fb.buf fb.len).toNat pre).length % 16777216) ∧
    (∀ (e : RtpSend) (rest : List RtpSend),
      (stream_frame cfg net fb st).1 = e :: rest →
      ((e.pkt.drop (20 + (find_sos fb.buf fb.len).toNat)).length : Int) =
        min (max_payload - find_sos fb.buf fb.len) ((fb.len : Int) - find_sos fb.buf fb.len)) := by
  by_cases h : 0 < find_sos fb.buf fb.len ∧ find_sos fb.buf fb.len ≤ max_payload
  · obtain ⟨q, st0, _, _, e3, _, _⟩ := stream_frame_accept cfg net fb st h.1 h.2
    have ee : fb.len = fb.buf.length := rfl
    rw [ee] at hlen h e3 ⊢
    obtain ⟨_, hrl, hl31⟩ := find_sos_range fb.buf fb.buf.length hlen h.1
    obtain ⟨H, hH⟩ : ∃ H : Nat, find_sos fb.buf fb.buf.length = (H : Int) :=
      ⟨(find_sos fb.buf fb.buf.length).toNat, by omega⟩
    rw [e3, hH, max_payload_eq, Int.toNat_ofNat]
    rw [hH] at hrl
    obtain ⟨o1, o2⟩ := offsets_loop net fb H q hl31 (by omega)
      (scan_len_total fb (H : Int)) st0
    refine ⟨o1, fun e rest he => ?_⟩
    rw [o2 e rest he]
    congr 1
    omega
  · rw [(stream_frame_reject cfg net fb st (by omega)).1]
    constructor
    · intro pre e post he; exact absurd he (by simp)
    · intro e rest he; exact absurd he (by simp)

theorem scan_bytes_next_concat (l : List RtpSend) (b : RtpSend) :
    scan_bytes_next (l ++ [b]) = scan_bytes_next l ++ b.pkt.drop 20 := by
  induction l with
  | nil => simp [scan_bytes_next]
  | cons x l ih => rw [List.cons_append, scan_bytes_next, scan_bytes_next, ih, List.append_assoc]

theorem length_scan_bytes_concat (h : Nat) (l : List RtpSend) (b : RtpSend) :
    (scan_bytes h (l ++ [b])).length ≤ (scan_bytes h l).length + (b.pkt.length - 20) := by
  cases l with
  | nil =>
    simp only [List.nil_append, scan_bytes, scan_bytes_next, List.append_nil, List.length_drop,
      List.length_nil]
    omega
  | cons x l =>
    rw [List.cons_append, scan_bytes, scan_bytes, scan_bytes_next_concat]
    simp only [List.length_append, List.length_drop]
    omega

/-- In a frame with more than 2^24 + 1380 scan bytes the offset field of the last
fragment, which has 24 bits, is less than the number of scan bytes that the fragments
before it carry. -/
theorem last_offset_wraps (cfg : Config) (net : Nat → SendtoResult) (fb : camera_fb_t)
    (st : StreamState) (H : Nat) (hlen : fb.len < 4294967296)
    (hf : find_sos fb.buf fb.len = (H : Int)) (h0 : 0 < H) (h1 : H < 1380)
    (hbig : H + 16777216 + 1380 < fb.len) :
    (stream_frame cfg net fb st).1 ≠ [] ∧
    ∀ e ∈ (stream_frame cfg net fb st).1.getLast?,
      jpeg_fragment_offset e.pkt < (scan_bytes H (stream_frame cfg net fb st).1.dropLast).length := by
  have hs := stream_frame_scan_bytes cfg net fb st hlen (by rw [hf]; omega)
    (by rw [hf, max_payload_eq]; omega)
  rw [hf, max_payload_eq, if_pos (by omega), Int.toNat_ofNat] at hs
  have hlenS : (scan_bytes H (stream_frame cfg net fb st).1).length = fb.buf.length - H := by
    rw [hs, List.length_drop]
  have ee : fb.len = fb.buf.length := rfl
  rw [ee] at hbig
  have hoff := (stream_frame_offsets cfg net fb st hlen).1
  rw [hf, Int.toNat_ofNat] at hoff
  have hlens := stream_frame_lengths cfg net fb st hlen
  rcases List.eq_nil_or_concat (stream_frame cfg net fb st).1 with hnil | ⟨L, b, hL⟩
  · rw [hnil] at hlenS
    simp only [scan_bytes, List.length_nil] at hlenS
    omega
  · rw [List.concat_eq_append] at hL
    rw [hL] at hlenS hlens ⊢
    refine ⟨by simp, ?_⟩
    intro e he
    rw [List.getLast?_append, List.getLast?_singleton] at he
    have he2 : b = e := by simpa [Option.or] using he
    subst he2
    rw [List.dropLast_concat]
    have hb := hlens b (by simp)
    have hc := length_scan_bytes_concat H L b
    have ho := hoff L b [] hL
    unfold MAX_PACKET_SIZE at hb
    omega

/-! # The claims on headers, offsets, rejection, retries and bounds -/

/-- C11, as amended. For every 16-bit `seq`, 32-bit `ts`, 32-bit `ssrc` and marker flag,
`build_rtp_header` writes exactly 12 bytes that decode to version 2, padding 0,
extension 0, CSRC count 0, payload type 26, marker bit equal to `marker != 0`, and
big-endian `seq`, `ts` and `ssrc` equal to the inputs; consequently the first packet
handed to the sender after SETUP and PLAY decodes to version 2, payload type 26,
sequence 0. It is the first packet sent when its send succeeds. -/
theorem rtp_header_layout (seq ts ssrc : Nat) (marker : Int) (hseq : seq < 65536)
    (hts : ts < 4294967296) (hssrc : ssrc < 4294967296) :
    ((build_rtp_header seq ts ssrc marker).length = 12 ∧
     (∀ b ∈ build_rtp_header seq ts ssrc marker, b < 256) ∧
     rtp_version (build_rtp_header seq ts ssrc marker) = 2 ∧
     rtp_padding (build_rtp_header seq ts ssrc marker) = 0 ∧
     rtp_extension (build_rtp_header seq ts ssrc marker) = 0 ∧
     rtp_csrc_count (build_rtp_header seq ts ssrc marker) = 0 ∧
     rtp_payload_type (build_rtp_header seq ts ssrc marker) = 26 ∧
     rtp_marker (build_rtp_header seq ts ssrc marker) = decide (marker ≠ 0) ∧
     rtp_seq (build_rtp_header seq ts ssrc marker) = seq ∧
     rtp_timestamp (build_rtp_header seq ts ssrc marker) = ts ∧
     rtp_ssrc (build_rtp_header seq ts ssrc marker) = ssrc) ∧
    (∀ (cfg : Config) (conn : Conn) (net : Nat → SendtoResult) (inputs : List Recv)
        (cycles : List CycleInput) (seq0 ts0 : Nat) (e : RtpSend) (rest : List RtpSend),
      (client_session cfg conn net inputs cycles seq0 ts0).packets = e :: rest →
      (rtp_version e.pkt = 2 ∧ rtp_payload_type e.pkt = 26 ∧ rtp_seq e.pkt = 0) ∧
      (e.delivered = true →
        ((client_session cfg conn net inputs cycles seq0 ts0).packets.filter
          (fun x => x.delivered)).head? = some e)) := by
  refine ⟨build_rtp_header_fields seq ts ssrc marker hseq hts hssrc, ?_⟩
  intro cfg conn net inputs cycles seq0 ts0 e rest h
  refine ⟨client_session_first_packet cfg conn net inputs cycles seq0 ts0 e rest h, fun hd => ?_⟩
  rw [h, List.filter_cons_of_pos (by simpa using hd)]
  rfl

/-- Witness of C11: the header of sequence number 0x1234 at timestamp 90000 with the
marker set. -/
theorem rtp_header_layout_witness :
    build_rtp_header 0x1234 90000 RTP_SSRC 1 =
      [0x80, 0x9A, 0x12, 0x34, 0x00, 0x01, 0x5F, 0x90, 0xCA, 0xFE, 0xBA, 0xBE] ∧
    rtp_seq (build_rtp_header 0x1234 90000 RTP_SSRC 1) = 0x1234 ∧
    rtp_timestamp (build_rtp_header 0x1234 90000 RTP_SSRC 1) = 90000 ∧
    rtp_ssrc (build_rtp_header 0x1234 90000 RTP_SSRC 1) = RTP_SSRC :=
  ⟨by decide,
   (rtp_header_layout 0x1234 90000 RTP_SSRC 1 (by decide) (by decide) (by decide)).1.2.2.2.2.2.2.2.2.1,
   (rtp_header_layout 0x1234 90000 RTP_SSRC 1 (by decide) (by decide) (by decide)).1.2.2.2.2.2.2.2.2.2.1,
   (rtp_header_layout 0x1234 90000 RTP_SSRC 1 (by decide) (by decide) (by decide)).1.2.2.2.2.2.2.2.2.2.2⟩

/-- Counterexample to C11 as stated: after a valid SETUP and PLAY the first `sendto`
fails with an error other than ENOBUFS, the packet with sequence number 0 is dropped, and
the first packet sent carries sequence number 1. -/
theorem first_packet_sent_can_have_sequence_one :
    ((client_session ⟨8554, 15⟩ ⟨"192.168.4.2".toList, 50000, none⟩
        (fun n => if n = 0 then SendtoResult.error else SendtoResult.sent)
        [Recv.request ("SETUP rtsp://192.168.4.1:8554/track1 RTSP/1.0\r\nCSeq: 3\r\n"
            ++ "Transport: RTP/AVP;unicast;client_port=5000-5001\r\n\r\n").toList true,
         Recv.request "PLAY rtsp://192.168.4.1:8554/ RTSP/1.0\r\nCSeq: 4\r\n\r\n".toList true]
        [CycleInput.frame ⟨[0xFF, 0xDA, 0, 12, 1], 320, 240⟩,
         CycleInput.frame ⟨[0xFF, 0xDA, 0, 12, 2], 320, 240⟩] 0 0).packets.filter
      (fun e => e.delivered)).map (fun e => (rtp_version e.pkt, rtp_payload_type e.pkt,
        rtp_seq e.pkt)) = [(2, 26, 1)] := by
  decide

/-- C12, as amended. For every frame of less than 2^32 bytes and every fragment emitted
for it, the 24-bit big-endian fragment-offset field (bytes 1..3 of the 8-byte JPEG payload
header) equals, modulo 2^24, the number of scan-data bytes carried by the preceding
fragments of that frame, not counting the header-prefix bytes: it is that number whenever
the number is below 2^24, and 0 for the first fragment. The first fragment carries
`min (max_payload - h, len - h)` scan bytes: its budget is the maximum payload minus the
header-prefix length. -/
theorem fragment_offsets_are_cumulative (cfg : Config) (net : Nat → SendtoResult)
    (fb : camera_fb_t) (st : StreamState) (hlen : fb.len < 4294967296) :
    (∀ (pre : List RtpSend) (e : RtpSend) (post : List RtpSend),
      (stream_frame cfg net fb st).1 = pre ++ e :: post →
      jpeg_fragment_offset e.pkt =
        (scan_bytes (find_sos fb.buf fb.len).toNat pre).length % 16777216 ∧
      ((scan_bytes (find_sos fb.buf fb.len).toNat pre).length < 16777216 →
        jpeg_fragment_offset e.pkt =
          (scan_bytes (find_sos fb.buf fb.len).toNat pre).length)) ∧
    (∀ (e : RtpSend) (rest : List RtpSend),
      (stream_frame cfg net fb st).1 = e :: rest →
      jpeg_fragment_offset e.pkt = 0 ∧
      ((e.pkt.drop (20 + (find_sos fb.buf fb.len).toNat)).length : Int) =
        min (max_payload - find_sos fb.buf fb.len)
          ((fb.len : Int) - find_sos fb.buf fb.len)) := by
  obtain ⟨o1, o2⟩ := stream_frame_offsets cfg net fb st hlen
  refine ⟨fun pre e post he => ⟨o1 pre e post he, fun hlt => ?_⟩,
    fun e rest he => ⟨?_, o2 e rest he⟩⟩
  · rw [o1 pre e post he, Nat.mod_eq_of_lt hlt]
  · rw [o1 [] e rest he]; rfl

/-- Witness of C12: the only packet of a 9-byte frame with a 6-byte header prefix has
fragment offset 0. -/
theorem fragment_offsets_are_cumulative_witness :
    (⟨[0xFF, 0xD8, 0xFF, 0xDA, 0, 8, 1, 2, 3], 320, 240⟩ : camera_fb_t).len < 4294967296 ∧
    jpeg_fragment_offset
      [128, 154, 0, 0, 0, 0, 0, 0, 202, 254, 186, 190, 0, 0, 0, 0, 0, 0, 40, 30,
       255, 216, 255, 218, 0, 8, 1, 2, 3] = 0 :=
  ⟨by decide,
   ((fragment_offsets_are_cumulative ⟨8554, 15⟩ (fun _ => SendtoResult.sent)
      ⟨[0xFF, 0xD8, 0xFF, 0xDA, 0, 8, 1, 2, 3], 320, 240⟩ ⟨0, 0, false, 0, 0⟩ (by decide)).2
      ⟨[128, 154, 0, 0, 0, 0, 0, 0, 202, 254, 186, 190, 0, 0, 0, 0, 0, 0, 40, 30,
        255, 216, 255, 218, 0, 8, 1, 2, 3], true⟩ [] (by decide)).1⟩

/-- Counterexample to C12 as stated: a frame of 4 header bytes and 2^24 + 5000 scan bytes.
The fragments before the last one carry more than 2^24 scan bytes, a number that the
three bytes of the offset field of the last fragment cannot hold. -/
theorem fragment_offset_wraps_past_16_MiB :
    find_sos (padded_frame 0 (List.replicate 16782216 9)).buf
      (padded_frame 0 (List.replicate 16782216 9)).len = 4 ∧
    (stream_frame ⟨8554, 15⟩ (fun _ => SendtoResult.sent)
      (padded_frame 0 (List.replicate 16782216 9)) ⟨0, 0, false, 0, 0⟩).1 ≠ [] ∧
    ∀ e ∈ (stream_frame ⟨8554, 15⟩ (fun _ => SendtoResult.sent)
        (padded_frame 0 (List.replicate 16782216 9)) ⟨0, 0, false, 0, 0⟩).1.getLast?,
      jpeg_fragment_offset e.pkt ≠
        (scan_bytes 4 (stream_frame ⟨8554, 15⟩ (fun _ => SendtoResult.sent)
          (padded_frame 0 (List.replicate 16782216 9)) ⟨0, 0, false, 0, 0⟩).1.dropLast).length := by
  have hl : (padded_frame 0 (List.replicate 16782216 9)).len = 16782220 := by
    unfold camera_fb_t.len
    rw [length_padded_frame, List.length_replicate]
  have hf : find_sos (padded_frame 0 (List.replicate 16782216 9)).buf
      (padded_frame 0 (List.replicate 16782216 9)).len = ((4 : Nat) : Int) := by
    rw [find_sos_padded_frame 0 (List.replicate 16782216 9)
      (by rw [List.length_replicate]; omega)]
    rfl
  obtain ⟨w1, w2⟩ := last_offset_wraps ⟨8554, 15⟩ (fun _ => SendtoResult.sent)
    (padded_frame 0 (List.replicate 16782216 9)) ⟨0, 0, false, 0, 0⟩ 4
    (by rw [hl]; omega) hf (by omega) (by omega) (by rw [hl]; omega)
  exact ⟨hf, w1, fun e he => Nat.ne_of_lt (w2 e he)⟩

/-- C13. For every buffer that contains no index `i` with `buf[i] = 0xFF` and
`buf[i+1] = 0xDA`, `find_sos` returns 0, and the streaming cycle rejects the frame: no RTP
packet is built or handed to the sender, and the sequence counter (as all of the state of
the loop) is unchanged. -/
theorem frame_without_sos_is_rejected (cfg : Config) (net : Nat → SendtoResult)
    (fb : camera_fb_t) (st : StreamState)
    (h : ∀ i, i + 1 < fb.buf.length →
      ¬ (fb.buf.getD i 0 = 0xFF ∧ fb.buf.getD (i + 1) 0 = 0xDA)) :
    find_sos fb.buf fb.len = 0 ∧
    (stream_frame cfg net fb st).1 = [] ∧
    (stream_frame cfg net fb st).2.global_seq = st.global_seq ∧
    (stream_frame cfg net fb st).2 = st := by
  obtain ⟨h0, h1⟩ := stream_frame_no_sos cfg net fb st h
  rw [h1]
  exact ⟨h0, rfl, rfl, rfl⟩

/-- Witness of C13: a 6-byte buffer that starts with SOI and holds no SOS marker. -/
theorem frame_without_sos_is_rejected_witness :
    find_sos [0xFF, 0xD8, 0xFF, 0xE0, 0, 16] 6 = 0 ∧
    (stream_frame ⟨8554, 15⟩ (fun _ => SendtoResult.sent)
      ⟨[0xFF, 0xD8, 0xFF, 0xE0, 0, 16], 320, 240⟩ ⟨7, 12000, false, 0, 0⟩).1 = [] :=
  ⟨(frame_without_sos_is_rejected ⟨8554, 15⟩ (fun _ => SendtoResult.sent)
      ⟨[0xFF, 0xD8, 0xFF, 0xE0, 0, 16], 320, 240⟩ ⟨7, 12000, false, 0, 0⟩
      (by intro i hi
          have hi6 : i < 5 := by simp only [List.length_cons, List.length_nil] at hi; omega
          interval_cases i <;> decide)).1,
   (frame_without_sos_is_rejected ⟨8554, 15⟩ (fun _ => SendtoResult.sent)
      ⟨[0xFF, 0xD8, 0xFF, 0xE0, 0, 16], 320, 240⟩ ⟨7, 12000, false, 0, 0⟩
      (by intro i hi
          have hi6 : i < 5 := by simp only [List.length_cons, List.length_nil] at hi; omega
          interval_cases i <;> decide)).2.1⟩

/-- C14. `send_rtp_packet_reliable`, over any sequence of `sendto` outcomes, makes at most
`MAX_SEND_RETRIES = 5` send attempts. When the first `k` attempts fail with ENOBUFS it has
slept `5 * 2^0, ..., 5 * 2^(k-1)` ms, one delay (followed by a yield) after each failure;
it returns true at the first attempt that succeeds, returns false at the first error
other than ENOBUFS, in both cases without further attempt or delay, and returns false
after 5 ENOBUFS failures and the delays 5, 10, 20, 40, 80 ms. -/
theorem reliable_send_backs_off (net : Nat → SendtoResult) (pos k : Nat)
    (hk : k ≤ MAX_SEND_RETRIES) (hfail : ∀ j, j < k → net (pos + j) = SendtoResult.enobufs) :
    (send_rtp_packet_reliable net pos).attempts ≤ MAX_SEND_RETRIES ∧
    (k = MAX_SEND_RETRIES →
      send_rtp_packet_reliable net pos = ⟨false, 5, [5, 10, 20, 40, 80]⟩) ∧
    (k < MAX_SEND_RETRIES → net (pos + k) = SendtoResult.sent →
      send_rtp_packet_reliable net pos = ⟨true, k + 1, backoff_delays k⟩) ∧
    (k < MAX_SEND_RETRIES → net (pos + k) = SendtoResult.error →
      send_rtp_packet_reliable net pos = ⟨false, k + 1, backoff_delays k⟩) := by
  obtain ⟨a, b, c⟩ := send_rtp_packet_reliable_spec net pos k hk hfail
  refine ⟨?_, fun h5 => ?_, b, c⟩
  · have := send_attempts_le net (MAX_SEND_RETRIES + 1) 0 pos
    simpa [send_rtp_packet_reliable] using this
  · rw [a h5, h5]; rfl

/-- Witness of C14: two ENOBUFS failures, then a success: three attempts, delays of 5 and
10 ms. -/
theorem reliable_send_backs_off_witness :
    send_rtp_packet_reliable
      (fun n => if n < 2 then SendtoResult.enobufs else SendtoResult.sent) 0 =
      ⟨true, 3, [5, 10]⟩ :=
  (reliable_send_backs_off (fun n => if n < 2 then SendtoResult.enobufs else SendtoResult.sent)
    0 2 (by decide) (by intro j hj; interval_cases j <;> rfl)).2.2.1 (by decide) (by decide)

/-- C15. For every frame buffer of less than 2^32 bytes (the range of `size_t`) the header
length returned by `find_sos` is at most the buffer length; for every iteration of the
fragment loop that builds a packet (`scan_offset < scan_len_total` and `chunk > 0`, the
two tests that precede the build), the chunk is at most
the remaining scan bytes, `pkt_size = 12 + 8 + (h in the first fragment, else 0) + chunk`
is at most `MAX_PACKET_SIZE = 1400`, and the bytes read, up to `h + scan_offset + chunk`,
lie inside the frame buffer; an iteration with `chunk <= 0` builds nothing and ends the
loop; every packet handed to the sender has at most 1400 bytes. -/
theorem fragment_loop_stays_in_bounds (cfg : Config) (net : Nat → SendtoResult)
    (fb : camera_fb_t) (st : StreamState) (hlen : fb.len < 4294967296) :
    0 ≤ find_sos fb.buf fb.len ∧ find_sos fb.buf fb.len ≤ fb.len ∧
    (∀ off : Nat, 0 < find_sos fb.buf fb.len →
      off < scan_len_total fb (find_sos fb.buf fb.len) →
      0 < (fragment_chunk fb (find_sos fb.buf fb.len) off).1 →
      (fragment_chunk fb (find_sos fb.buf fb.len) off).1 ≤
        ((scan_len_total fb (find_sos fb.buf fb.len) - off : Nat) : Int) ∧
      pkt_size (find_sos fb.buf fb.len) off (fragment_chunk fb (find_sos fb.buf fb.len) off).1
        ≤ MAX_PACKET_SIZE ∧
      find_sos fb.buf fb.len + off + (fragment_chunk fb (find_sos fb.buf fb.len) off).1
        ≤ fb.len ∧
      ∀ (q : Int) (seq ts : Nat) (l : Bool),
        ((build_packet fb (find_sos fb.buf fb.len) q seq ts off
            (fragment_chunk fb (find_sos fb.buf fb.len) off).1 l).length : Int) =
          pkt_size (find_sos fb.buf fb.len) off
            (fragment_chunk fb (find_sos fb.buf fb.len) off).1) ∧
    (∀ (off fuel : Nat) (q : Int) (st2 : StreamState),
      (fragment_chunk fb (find_sos fb.buf fb.len) off).1 ≤ 0 →
      fragment_loop net fb (find_sos fb.buf fb.len) q fuel off st2 = ([], st2)) ∧
    (∀ e ∈ (stream_frame cfg net fb st).1, e.pkt.length ≤ MAX_PACKET_SIZE) := by
  obtain ⟨a1, a2⟩ := find_sos_le_len fb.buf fb.len hlen
  refine ⟨a1, a2, ?_, fun off fuel q st2 hc => fragment_loop_stop net fb _ q fuel off st2
    (Or.inr hc), stream_frame_lengths cfg net fb st hlen⟩
  intro off h0 hoff hc
  have ee : fb.len = fb.buf.length := rfl
  rw [ee] at hlen h0 hoff hc a2 ⊢
  obtain ⟨_, hrl, hl31⟩ := find_sos_range fb.buf fb.buf.length hlen h0
  obtain ⟨H, hH⟩ : ∃ H : Nat, find_sos fb.buf fb.buf.length = (H : Int) :=
    ⟨(find_sos fb.buf fb.buf.length).toNat, by omega⟩
  rw [hH] at hrl hoff hc ⊢
  exact fragment_iteration_bounds fb H off hl31 (by omega) hoff hc

/-- Witness of C15: the first iteration on a 9-byte frame with a 6-byte header prefix, whose
packet has 12 + 8 + 6 + 3 = 29 bytes. -/
theorem fragment_loop_stays_in_bounds_witness :
    (⟨[0xFF, 0xD8, 0xFF, 0xDA, 0, 8, 1, 2, 3], 320, 240⟩ : camera_fb_t).len < 4294967296 ∧
    find_sos [0xFF, 0xD8, 0xFF, 0xDA, 0, 8, 1, 2, 3] 9 ≤ 9 ∧
    pkt_size (find_sos [0xFF, 0xD8, 0xFF, 0xDA, 0, 8, 1, 2, 3] 9) 0
      (fragment_chunk ⟨[0xFF, 0xD8, 0xFF, 0xDA, 0, 8, 1, 2, 3], 320, 240⟩
        (find_sos [0xFF, 0xD8, 0xFF, 0xDA, 0, 8, 1, 2, 3] 9) 0).1 ≤ MAX_PACKET_SIZE :=
  ⟨by decide,
   (fragment_loop_stays_in_bounds ⟨8554, 15⟩ (fun _ => SendtoResult.sent)
      ⟨[0xFF, 0xD8, 0xFF, 0xDA, 0, 8, 1, 2, 3], 320, 240⟩ ⟨0, 0, false, 0, 0⟩ (by decide)).2.1,
   ((fragment_loop_stays_in_bounds ⟨8554, 15⟩ (fun _ => SendtoResult.sent)
      ⟨[0xFF, 0xD8, 0xFF, 0xDA, 0, 8, 1, 2, 3], 320, 240⟩ ⟨0, 0, false, 0, 0⟩
      (by decide)).2.2.1 0 (by decide) (by decide) (by decide)).2.1⟩

end RtspMjpeg
